import Mathlib

/-!
# Verification of the IsoCity procedural sprite-sheet generator

Shallow embedding of `src/lib/proceduralSpriteSheets.ts`,
`src/lib/proceduralSpriteExtensions.ts`, `src/lib/proceduralAssetsMode.ts`
and `src/lib/spritePackRegistry.ts`.

Modelling conventions:
* JavaScript numbers are modelled as `ℚ` (all arithmetic in the generator is
  exact decimal arithmetic on small values); 32-bit integer operations
  (`>>> 0`, `|`, `^`, `Math.imul`) are modelled on `Nat`/`Int` with explicit
  reduction modulo `2^32`.
* The Canvas 2D context is modelled as a trace: every context method call
  appends one `DrawOp` to a list.  Angle arguments of `arc`/`ellipse` are
  recorded in units of π (the source only ever passes `0` and `Math.PI * 2`).
* The mutable per-cell RNG closure (`mulberry32`) is modelled by threading its
  internal 32-bit counter state (a `Nat`) explicitly.
* Fallible code returns `Except GenError`; the browser environment
  (`document`, `canvas.getContext`) is an explicit record.
-/

set_option maxRecDepth 10000

namespace IsoCity

/-! ## JavaScript 32-bit integer primitives -/

/-- `ToUint32` of an integral JS number: reduce modulo `2^32` (`x >>> 0`). -/
def toUint32 (x : Int) : Nat := (x % (2 ^ 32 : Int)).toNat

/-- `ToInt32` of an integral JS number: reduce modulo `2^32`, interpret signed. -/
def toInt32 (x : Int) : Int :=
  let u := toUint32 x
  if u < 2 ^ 31 then (u : Int) else (u : Int) - 2 ^ 32

/-- JS `a ^ b` on 32-bit integers (both operands pass through `ToInt32`). -/
def jsXor (a b : Int) : Int := toInt32 (Nat.xor (toUint32 a) (toUint32 b))

/-- JS `a | b` on 32-bit integers. -/
def jsOr (a b : Int) : Int := toInt32 (Nat.lor (toUint32 a) (toUint32 b))

/-- JS `a >>> k`: unsigned 32-bit right shift (result is non-negative). -/
def jsShrU (a : Int) (k : Nat) : Int := (Nat.shiftRight (toUint32 a) k : Int)

/-- JS `Math.imul(a, b)`: 32-bit signed multiplication. -/
def imul (a b : Int) : Int := toInt32 (toInt32 a * toInt32 b)

/-! ## Deterministic RNG (mulberry32) and FNV-1a string hash

Source: `proceduralSpriteSheets.ts`, `mulberry32` / `hashStringToSeed`.
The closure state `t` is held exactly (JS keeps it as a float; it stays an
exact integer for every run length reachable here), and every read site
reduces it modulo `2^32` exactly as the JS coercions do. -/

/-- One draw of `mulberry32`: returns the value in `[0,1)` and the new state. -/
def mulberry32Next (t : Nat) : ℚ × Nat :=
  let t' := t + 0x6d2b79f5
  let a := jsXor (t' : Int) (jsShrU (t' : Int) 15)
  let b := jsOr 1 (t' : Int)
  let r0 := imul a b
  let r1 := jsXor r0 ((r0 + imul (jsXor r0 (jsShrU r0 7)) (jsOr 61 r0)))
  let out := toUint32 (jsXor r1 (jsShrU r1 14))
  ((out : ℚ) / 4294967296, t')

/-- The n-th value of the `mulberry32` stream started from `seed >>> 0`. -/
def mulberry32Stream (seed : Nat) : Nat → ℚ
  | 0 => (mulberry32Next (seed % 2 ^ 32)).1
  | n + 1 => mulberry32Stream (mulberry32Next (seed % 2 ^ 32)).2 n

/-- FNV-1a 32-bit string hash (`hashStringToSeed`).  `charCodeAt` is the
UTF-16 code unit; every string hashed by the generator is ASCII, where it
coincides with `Char.toNat`. -/
def hashStringToSeed (input : String) : Nat :=
  toUint32 (input.data.foldl
    (fun h c => imul (jsXor h (Int.ofNat c.toNat)) 0x01000193) 0x811c9dc5)

/-! ## Number formatting and colors -/

/-- JS `Math.round` (round half up) as used by `clampByte`. -/
def jsRound (q : ℚ) : Int := Int.floor (q + 1 / 2)

/-- `clampByte` from the source: clamp a rounded channel value to `[0,255]`. -/
def clampByte (n : ℚ) : Int := max 0 (min 255 (jsRound n))

/-- Decimal rendering of a rational whose reduced denominator divides a power
of ten — the JS `Number#toString` result for every number the generator
interpolates into a style string (alpha values such as `0.35`). -/
def qToJsString (q : ℚ) : String :=
  if q.den = 1 then toString q.num
  else
    match (List.range 21).find? (fun k => (10 ^ k : ℤ) % (q.den : ℤ) = 0) with
    | some k =>
        let scaled : ℤ := q.num * ((10 ^ k : ℤ) / (q.den : ℤ))
        let sign := if scaled < 0 then "-" else ""
        let digits := toString scaled.natAbs
        let padded := String.mk (List.replicate (k + 1 - min (k + 1) digits.length) '0') ++ digits
        let ipart := padded.dropRight k
        let fpart := (padded.takeRight k).dropRightWhile (fun c => c = '0')
        sign ++ ipart ++ (if fpart.isEmpty then "" else "." ++ fpart)
    | none => toString q

structure RGB where
  r : ℚ
  g : ℚ
  b : ℚ
  deriving DecidableEq, Repr

/-- Value of one hexadecimal digit; JS `parseInt` stops at the first invalid
character (and yields `NaN`, which later 32-bit coercions turn into `0`, for
an empty prefix) — modelled by parsing the longest valid prefix. -/
def hexDigitVal (c : Char) : Option Nat :=
  if '0' ≤ c ∧ c ≤ '9' then some (c.toNat - '0'.toNat)
  else if 'a' ≤ c ∧ c ≤ 'f' then some (c.toNat - 'a'.toNat + 10)
  else if 'A' ≤ c ∧ c ≤ 'F' then some (c.toNat - 'A'.toNat + 10)
  else none

def parseHexAux : List Char → Nat → Nat
  | [], acc => acc
  | c :: cs, acc =>
      match hexDigitVal c with
      | some v => parseHexAux cs (acc * 16 + v)
      | none => acc

/-- `parseInt(s, 16)` for the hex color literals of the source. -/
def parseHex (s : String) : Nat := parseHexAux s.data 0

/-- JS `String#replace('#','')`: drop the first occurrence of `'#'`. -/
def replaceFirstHash : List Char → List Char
  | [] => []
  | c :: cs => if c = '#' then cs else c :: replaceFirstHash cs

/-- `hexToRgb` from the source. -/
def hexToRgb (hex : String) : RGB :=
  let cleaned := replaceFirstHash hex.data
  let full := if cleaned.length = 3 then cleaned.flatMap (fun c => [c, c]) else cleaned
  let n := parseHex (String.mk full)
  { r := ((Nat.shiftRight n 16).land 255 : ℚ)
    g := ((Nat.shiftRight n 8).land 255 : ℚ)
    b := (n.land 255 : ℚ) }

/-- `rgbToCss` from the source. -/
def rgbToCss (rgb : RGB) (a : ℚ) : String :=
  "rgba(" ++ toString (clampByte rgb.r) ++ ", " ++ toString (clampByte rgb.g) ++
    ", " ++ toString (clampByte rgb.b) ++ ", " ++ qToJsString a ++ ")"

/-- `mix` from the source. -/
def mix (a b : RGB) (t : ℚ) : RGB :=
  { r := a.r + (b.r - a.r) * t
    g := a.g + (b.g - a.g) * t
    b := a.b + (b.b - a.b) * t }

def lighten (rgb : RGB) (t : ℚ) : RGB := mix rgb ⟨255, 255, 255⟩ t

def darken (rgb : RGB) (t : ℚ) : RGB := mix rgb ⟨0, 0, 0⟩ t

/-- `withAlpha` from the source: hex colors get converted, anything else is
returned unchanged. -/
def withAlpha (color : String) (alpha : ℚ) : String :=
  if color.startsWith "#" then rgbToCss (hexToRgb color) alpha else color

/-! ## Sprite styles (`styleForSpriteKey`) -/

inductive SpriteKind where
  | building | tree | park | utility | special
  deriving DecidableEq, Repr

structure SpriteStyle where
  kind : SpriteKind
  baseColor : String
  footprintX : ℚ
  footprintY : ℚ
  height : ℚ
  roofColor : Option String
  accentColor : Option String
  deriving DecidableEq, Repr

/-- JS `String#indexOf(':')` over the underlying character list. -/
def jsIndexOf (s : String) (c : Char) : Int :=
  match s.data.findIdx? (fun x => x = c) with
  | some i => (i : Int)
  | none => -1

/-- JS `String#includes`. -/
def jsIncludes (s sub : String) : Bool := decide (sub.data <:+: s.data)

/-- Result of `splitProceduralKey`; the source field `prefix` is renamed to
`prefixPart` (the bare word collides with a Lean keyword). -/
structure SplitKey where
  prefixPart : Option String
  key : String
  deriving DecidableEq, Repr

/-- `splitProceduralKey` from the source: split on the first `':'`; an index
`≤ 0` (missing colon, or a leading colon) yields no prefix. -/
def splitProceduralKey (input : String) : SplitKey :=
  let idx := jsIndexOf input ':'
  if idx ≤ 0 then ⟨none, input⟩
  else ⟨some (String.mk (input.data.take idx.toNat)),
        String.mk (input.data.drop (idx.toNat + 1))⟩

/-- The ordered classification ladder of `styleForSpriteKey`, applied to the
un-prefixed key (the body of the source function between the defaults and the
prefix-modifier section, including the `water` override). -/
def styleForKeyBase (key : String) : SpriteStyle :=
  let style : SpriteStyle :=
    { kind := .building, baseColor := "#64748b", footprintX := 1.1,
      footprintY := 1.1, height := 1.0, roofColor := some "#94a3b8",
      accentColor := some "#0f172a" }
  let style :=
    if jsIncludes key "house" ∨ key = "mansion" ∨ jsIncludes key "cabin" ∨
        jsIncludes key "lodge" then
      { kind := .building, baseColor := "#60a5fa"
        footprintX := if key = "mansion" ∨ key = "mountain_lodge" then 1.7
          else if key = "house_medium" then 1.3 else 1.15
        footprintY := if key = "mansion" ∨ key = "mountain_lodge" then 1.6
          else if key = "house_medium" then 1.25 else 1.1
        height := if key = "mansion" ∨ key = "mountain_lodge" then 1.35
          else if key = "house_medium" then 1.1 else 0.9
        roofColor := some "#1d4ed8", accentColor := some "#0b1220" }
    else if key = "residential" then
      { kind := .building, baseColor := "#3b82f6", footprintX := 1.55,
        footprintY := 1.45, height := 2.1, roofColor := some "#1e3a8a",
        accentColor := some "#0b1220" }
    else if jsIncludes key "apartment" then
      let isHigh := jsIncludes key "high"
      { kind := .building, baseColor := if isHigh then "#38bdf8" else "#60a5fa"
        footprintX := if isHigh then 1.95 else 1.75
        footprintY := if isHigh then 1.8 else 1.65
        height := if isHigh then 2.9 else 2.3
        roofColor := some (if isHigh then "#0369a1" else "#1d4ed8")
        accentColor := some "#0b1220" }
    else if jsIncludes key "office" then
      let isHigh := jsIncludes key "high"
      { kind := .building, baseColor := if isHigh then "#fbbf24" else "#f59e0b"
        footprintX := 1.9, footprintY := 1.75
        height := if isHigh then 2.75 else 2.25
        roofColor := some "#92400e", accentColor := some "#111827" }
    else if jsIncludes key "shop" then
      { kind := .building, baseColor := "#fbbf24"
        footprintX := if key = "shop_medium" then 1.4 else 1.2
        footprintY := 1.2
        height := if key = "shop_medium" then 1.2 else 1.0
        roofColor := some "#b45309", accentColor := some "#111827" }
    else if key = "commercial" ∨ key = "mall" then
      { kind := .building, baseColor := "#f59e0b"
        footprintX := if key = "mall" then 2.1 else 1.7
        footprintY := if key = "mall" then 1.9 else 1.6
        height := if key = "mall" then 2.8 else 2.4
        roofColor := some "#92400e", accentColor := some "#111827" }
    else if jsIncludes key "factory" ∨ key = "warehouse" then
      let isLarge := key = "factory_large"
      let isMed := key = "factory_medium"
      { kind := .building, baseColor := "#9ca3af"
        footprintX := if isLarge then 2.0 else if isMed then 1.6 else 1.35
        footprintY := if isLarge then 1.8 else if isMed then 1.5 else 1.25
        height := if isLarge then 1.6 else if isMed then 1.3 else 1.1
        roofColor := some "#6b7280", accentColor := some "#111827" }
    else if key = "industrial" then
      { kind := .building, baseColor := "#94a3b8", footprintX := 1.8,
        footprintY := 1.7, height := 1.9, roofColor := some "#475569",
        accentColor := some "#0f172a" }
    else if jsIncludes key "police" then
      { kind := .building, baseColor := "#a5b4fc", footprintX := 1.45,
        footprintY := 1.35, height := 1.35, roofColor := some "#4338ca",
        accentColor := some "#111827" }
    else if jsIncludes key "fire_station" then
      { kind := .building, baseColor := "#fb7185", footprintX := 1.55,
        footprintY := 1.4, height := 1.4, roofColor := some "#be123c",
        accentColor := some "#111827" }
    else if jsIncludes key "hospital" then
      { kind := .building, baseColor := "#f1f5f9", footprintX := 1.7,
        footprintY := 1.55, height := 1.8, roofColor := some "#94a3b8",
        accentColor := some "#ef4444" }
    else if jsIncludes key "school" then
      { kind := .building, baseColor := "#fde68a", footprintX := 1.55,
        footprintY := 1.45, height := 1.35, roofColor := some "#b45309",
        accentColor := some "#111827" }
    else if jsIncludes key "university" then
      { kind := .building, baseColor := "#c4b5fd", footprintX := 1.75,
        footprintY := 1.65, height := 1.65, roofColor := some "#6d28d9",
        accentColor := some "#111827" }
    else if key = "tree" then
      { kind := .tree, baseColor := "#16a34a", footprintX := 1.05,
        footprintY := 1.05, height := 1.35, roofColor := some "#14532d",
        accentColor := some "#78350f" }
    else if key.startsWith "park" ∨ jsIncludes key "garden" ∨
        jsIncludes key "playground" ∨ jsIncludes key "camp" ∨
        jsIncludes key "trail" ∨ jsIncludes key "pond" ∨
        jsIncludes key "court" ∨ jsIncludes key "field" ∨
        jsIncludes key "pool" ∨ jsIncludes key "skate" ∨
        jsIncludes key "go_kart" ∨ jsIncludes key "roller_coaster" ∨
        jsIncludes key "marina" ∨ jsIncludes key "pier" then
      let isLarge := jsIncludes key "large" ∨ jsIncludes key "stadium" ∨
        jsIncludes key "mountain_trailhead"
      { kind := .park
        baseColor := if jsIncludes key "pool" ∨ jsIncludes key "pond"
          then "#3b82f6" else "#22c55e"
        footprintX := if isLarge then 1.9 else 1.45
        footprintY := if isLarge then 1.75 else 1.35
        height := 0.45, roofColor := some "#166534",
        accentColor := some "#f8fafc" }
    else if key = "power_plant" then
      { kind := .utility, baseColor := "#a3a3a3", footprintX := 2.0,
        footprintY := 1.7, height := 1.8, roofColor := some "#525252",
        accentColor := some "#f59e0b" }
    else if key = "water_tower" then
      { kind := .utility, baseColor := "#93c5fd", footprintX := 1.2,
        footprintY := 1.2, height := 2.0, roofColor := some "#1d4ed8",
        accentColor := some "#0f172a" }
    else if key = "subway_station" ∨ key = "rail_station" then
      { kind := .utility, baseColor := "#cbd5e1", footprintX := 1.6,
        footprintY := 1.5, height := 0.95, roofColor := some "#64748b",
        accentColor := some "#0f172a" }
    else if key = "stadium" ∨ jsIncludes key "stadium" then
      { kind := .special, baseColor := "#e5e7eb", footprintX := 2.2,
        footprintY := 2.0, height := 1.0, roofColor := some "#9ca3af",
        accentColor := some "#0f172a" }
    else if key = "museum" ∨ jsIncludes key "amphitheater" then
      { kind := .special, baseColor := "#fef3c7", footprintX := 1.85,
        footprintY := 1.65, height := 1.35, roofColor := some "#b45309",
        accentColor := some "#0f172a" }
    else if key = "airport" then
      { kind := .special, baseColor := "#e2e8f0", footprintX := 2.4,
        footprintY := 2.1, height := 0.85, roofColor := some "#64748b",
        accentColor := some "#0f172a" }
    else if key = "space_program" then
      { kind := .special, baseColor := "#d1d5db", footprintX := 2.0,
        footprintY := 1.8, height := 2.2, roofColor := some "#4b5563",
        accentColor := some "#22d3ee" }
    else if key = "city_hall" ∨ jsIncludes key "park_gate" then
      { kind := .special, baseColor := "#e0e7ff", footprintX := 1.9,
        footprintY := 1.7, height := 1.7, roofColor := some "#4338ca",
        accentColor := some "#111827" }
    else if key = "amusement_park" ∨ jsIncludes key "roller_coaster" ∨
        jsIncludes key "go_kart" then
      { kind := .special, baseColor := "#fca5a5", footprintX := 2.1,
        footprintY := 1.9, height := 1.4, roofColor := some "#be123c",
        accentColor := some "#fbbf24" }
    else style
  if key = "water" then
    { kind := .park, baseColor := "#3b82f6", footprintX := 1.9,
      footprintY := 1.8, height := 0.25, roofColor := some "#1d4ed8",
      accentColor := some "#93c5fd" }
  else style

/-- The prefix-modifier section of `styleForSpriteKey`
(`dense` / `modern` / `farm` / `station`). -/
def applyPrefixModifier (pre : Option String) (style : SpriteStyle) : SpriteStyle :=
  if pre = some "dense" then
    { style with
      height := style.height * 1.25
      footprintX := style.footprintX * 1.05
      footprintY := style.footprintY * 1.05 }
  else if pre = some "modern" then
    { style with
      baseColor := "#94a3b8"
      roofColor := some "#334155"
      accentColor := some "#0f172a"
      height := style.height * 1.15 }
  else if pre = some "farm" then
    { style with
      baseColor := "#a3e635"
      roofColor := some "#4d7c0f"
      accentColor := some "#78350f" }
  else if pre = some "station" then
    { style with
      kind := .utility
      baseColor := "#cbd5e1"
      roofColor := some "#64748b"
      accentColor := some "#0f172a" }
  else style

/-- `styleForSpriteKey` from the source: split off the namespace prefix, run
the classification ladder on the bare key, then apply the prefix modifier. -/
def styleForSpriteKey (spriteKey : String) : SpriteStyle :=
  let s := splitProceduralKey spriteKey
  applyPrefixModifier s.prefixPart (styleForKeyBase s.key)

/-! ## Canvas trace model

Every Canvas 2D context call made by the generator is recorded as one
`DrawOp`.  Two generation runs are byte-identical iff their canvas dimensions
and operation traces are equal.  Angles are stored in units of π. -/

inductive DrawOp where
  | save | restore | beginPath | closePath | fill | stroke
  | clearRect (x y w h : ℚ)
  | fillRect (x y w h : ℚ)
  | moveTo (x y : ℚ)
  | lineTo (x y : ℚ)
  | ellipse (x y rx ry rot a0 a1 : ℚ)
  | arc (x y r a0 a1 : ℚ)
  | translate (x y : ℚ)
  | setFillStyle (s : String)
  | setStrokeStyle (s : String)
  | setGlobalAlpha (a : ℚ)
  | setLineWidth (w : ℚ)
  | setImageSmoothing (b : Bool)
  deriving DecidableEq, Repr

structure Vec2 where
  x : ℚ
  y : ℚ
  deriving DecidableEq, Repr

def addV (a b : Vec2) : Vec2 := ⟨a.x + b.x, a.y + b.y⟩

def subV (a b : Vec2) : Vec2 := ⟨a.x - b.x, a.y - b.y⟩

def scaleV (v : Vec2) (s : ℚ) : Vec2 := ⟨v.x * s, v.y * s⟩

/-- `Math.min(...xs)` over a non-empty spread list. -/
def minList : List ℚ → ℚ
  | [] => 0
  | h :: t => t.foldl min h

/-- `Math.max(...xs)` over a non-empty spread list. -/
def maxList : List ℚ → ℚ
  | [] => 0
  | h :: t => t.foldl max h

/-- `drawPolygon` from the source. -/
def drawPolygon (pts : List Vec2) (fillColor : String) (strokeColor : Option String)
    (strokeWidth : ℚ) : List DrawOp :=
  if pts.length < 3 then []
  else
    match pts with
    | [] => []
    | p0 :: rest =>
        [DrawOp.beginPath, DrawOp.moveTo p0.x p0.y] ++
        rest.map (fun p => DrawOp.lineTo p.x p.y) ++
        [DrawOp.closePath, DrawOp.setFillStyle fillColor, DrawOp.fill] ++
        (match strokeColor with
         | some st => [DrawOp.setStrokeStyle st, DrawOp.setLineWidth strokeWidth, DrawOp.stroke]
         | none => [])

structure PrismColors where
  top : String
  leftC : String
  rightC : String
  outline : String

structure PrismBounds where
  top : List Vec2
  leftF : List Vec2
  rightF : List Vec2
  base : List Vec2

/-- `drawIsoPrism` from the source: three faces painted right, left, top. -/
def drawIsoPrism (center : Vec2) (baseY isoUnitW isoUnitH sizeX sizeY heightPx : ℚ)
    (colors : PrismColors) : List DrawOp × PrismBounds :=
  let u : Vec2 := ⟨isoUnitW / 2, isoUnitH / 2⟩
  let v : Vec2 := ⟨-isoUnitW / 2, isoUnitH / 2⟩
  let c : Vec2 := ⟨center.x, baseY⟩
  let halfX := scaleV u (sizeX / 2)
  let halfY := scaleV v (sizeY / 2)
  let p0 := subV (subV c halfX) halfY
  let p1 := addV (subV c halfY) halfX
  let p2 := addV (addV c halfX) halfY
  let p3 := addV (addV c halfY) (subV ⟨0, 0⟩ halfX)
  let lift : Vec2 := ⟨0, -heightPx⟩
  let p0t := addV p0 lift
  let p1t := addV p1 lift
  let p2t := addV p2 lift
  let p3t := addV p3 lift
  let rightFace := [p1, p2, p2t, p1t]
  let leftFace := [p0, p3, p3t, p0t]
  let topFace := [p0t, p1t, p2t, p3t]
  (drawPolygon rightFace colors.rightC (some colors.outline) 1 ++
   drawPolygon leftFace colors.leftC (some colors.outline) 1 ++
   drawPolygon topFace colors.top (some colors.outline) 1,
   ⟨topFace, leftFace, rightFace, [p0, p1, p2, p3]⟩)

/-- `drawWindows` from the source; threads the per-cell RNG state. -/
def drawWindows (face : List Vec2) (rng : Nat) (color : String) : List DrawOp × Nat :=
  if face.length ≠ 4 then ([], rng)
  else
    let xs := face.map (·.x)
    let ys := face.map (·.y)
    let minX := minList xs
    let maxX := maxList xs
    let minY := minList ys
    let maxY := maxList ys
    let w := maxX - minX
    let h := maxY - minY
    if w < 12 ∨ h < 12 then ([], rng)
    else
      let cols := (max 2 (Int.floor (w / 16))).toNat
      let rows := (max 2 (Int.floor (h / 18))).toNat
      let padX := w * 0.15
      let padY := h * 0.2
      let cellW := (w - padX * 2) / cols
      let cellH := (h - padY * 2) / rows
      let body := (List.range rows).foldl (fun acc r =>
        (List.range cols).foldl (fun acc c =>
          let (val, rng') := mulberry32Next acc.2
          if val < 0.18 then (acc.1, rng')
          else
            let wx := minX + padX + c * cellW + cellW * 0.2
            let wy := minY + padY + r * cellH + cellH * 0.25
            (acc.1 ++ [DrawOp.fillRect wx wy (cellW * 0.55) (cellH * 0.45)], rng')) acc) ([], rng)
      ([DrawOp.save, DrawOp.setFillStyle color, DrawOp.setGlobalAlpha 0.6] ++
        body.1 ++ [DrawOp.restore], body.2)

/-- `drawConstructionOverlay` from the source.  The JS loop
`for (i = -w; i < w*2; i += step)` runs `⌈3w/step⌉` times (clamped at 0). -/
def drawConstructionOverlay (x y w h : ℚ) : List DrawOp :=
  let lw : ℚ := (max 2 (Int.floor (w / 64)) : Int)
  let step : Int := max 12 (Int.floor (w / 14))
  let n : Nat := (Int.ceil ((3 * w) / (step : ℚ))).toNat
  let stripes := (List.range n).flatMap (fun k =>
    let i : ℚ := -w + (k : ℚ) * (step : ℚ)
    [DrawOp.beginPath, DrawOp.moveTo (x + i) (y + h * 0.25),
     DrawOp.lineTo (x + i + w) (y + h * 0.9), DrawOp.stroke])
  let bars := (List.range 3).flatMap (fun i =>
    let bx := x + (w * ((i : ℚ) + 1)) / 4
    [DrawOp.beginPath, DrawOp.moveTo bx (y + h * 0.25),
     DrawOp.lineTo bx (y + h * 0.9), DrawOp.stroke])
  [DrawOp.save, DrawOp.setGlobalAlpha 0.25, DrawOp.setLineWidth lw,
   DrawOp.setStrokeStyle "rgba(245, 158, 11, 1)"] ++ stripes ++
  [DrawOp.setGlobalAlpha 0.35, DrawOp.setStrokeStyle "rgba(148, 163, 184, 1)"] ++
  bars ++ [DrawOp.restore]

/-- `drawAbandonedOverlay` from the source: dark wash plus 6 RNG streaks. -/
def drawAbandonedOverlay (x y w h : ℚ) (rng : Nat) : List DrawOp × Nat :=
  let body := (List.range 6).foldl (fun acc _ =>
    let (v1, s1) := mulberry32Next acc.2
    let (v2, s2) := mulberry32Next s1
    let sx := x + v1 * w
    let sy := y + v2 * h
    let (v3, s3) := mulberry32Next s2
    let (v4, s4) := mulberry32Next s3
    (acc.1 ++ [DrawOp.beginPath, DrawOp.moveTo sx sy,
      DrawOp.lineTo (sx + (v3 - 0.5) * w * 0.6) (sy + v4 * h * 0.4),
      DrawOp.stroke], s4)) ([], rng)
  ([DrawOp.save, DrawOp.setGlobalAlpha 0.22, DrawOp.setFillStyle "rgba(0, 0, 0, 1)",
    DrawOp.fillRect x y w h, DrawOp.setGlobalAlpha 0.35, DrawOp.setLineWidth 1,
    DrawOp.setStrokeStyle "rgba(15, 23, 42, 1)"] ++ body.1 ++ [DrawOp.restore],
   body.2)

/-- `drawTree` from the source. -/
def drawTree (x y w h : ℚ) (rng : Nat) : List DrawOp × Nat :=
  let trunkW := w * 0.07
  let trunkH := h * 0.22
  let cx := x + w * 0.5
  let baseY := y + h * 0.88
  let (v, s1) := mulberry32Next rng
  let canopyR := w * (0.18 + v * 0.06)
  let canopyY := baseY - trunkH - canopyR * 0.8
  ([DrawOp.save, DrawOp.setGlobalAlpha 0.25, DrawOp.setFillStyle "rgba(0,0,0,1)",
    DrawOp.beginPath, DrawOp.ellipse cx baseY (w * 0.12) (h * 0.05) 0 0 2,
    DrawOp.fill, DrawOp.restore,
    DrawOp.setFillStyle "#92400e",
    DrawOp.fillRect (cx - trunkW / 2) (baseY - trunkH) trunkW trunkH,
    DrawOp.setFillStyle "#16a34a", DrawOp.beginPath,
    DrawOp.arc cx canopyY canopyR 0 2, DrawOp.fill,
    DrawOp.setGlobalAlpha 0.35, DrawOp.setFillStyle "#86efac", DrawOp.beginPath,
    DrawOp.arc (cx - canopyR * 0.25) (canopyY - canopyR * 0.15) (canopyR * 0.45) 0 2,
    DrawOp.fill, DrawOp.setGlobalAlpha 1], s1)

/-- `drawPark` from the source: green patch plus `⌊1 + rng()·2⌋` tiny trees. -/
def drawPark (x y w h : ℚ) (rng : Nat) : List DrawOp × Nat :=
  let header := [DrawOp.save, DrawOp.setGlobalAlpha 0.35, DrawOp.setFillStyle "#16a34a",
    DrawOp.beginPath,
    DrawOp.ellipse (x + w * 0.5) (y + h * 0.82) (w * 0.28) (h * 0.12) 0 0 2,
    DrawOp.fill, DrawOp.restore]
  let (v, s1) := mulberry32Next rng
  let t := (Int.floor (1 + v * 2)).toNat
  let body := (List.range t).foldl (fun acc _ =>
    let (v1, r1) := mulberry32Next acc.2
    let (v2, r2) := mulberry32Next r1
    let tx := x + w * (0.35 + v1 * 0.3)
    let ty := y + h * (0.55 + v2 * 0.1)
    let tree := drawTree x y w h r2
    (acc.1 ++ [DrawOp.save, DrawOp.translate (tx - w * 0.5) (ty - h * 0.5)] ++
      tree.1 ++ [DrawOp.restore], tree.2)) ([], s1)
  (header ++ body.1, body.2)

/-- `drawTennisCourt` from the source. -/
def drawTennisCourt (x y w h : ℚ) : List DrawOp :=
  let cx := x + w * 0.5
  let baseY := y + h * 0.84
  [DrawOp.save, DrawOp.setGlobalAlpha 0.85, DrawOp.setFillStyle "#0ea5e9",
   DrawOp.beginPath, DrawOp.moveTo cx (baseY - h * 0.22),
   DrawOp.lineTo (cx + w * 0.22) baseY, DrawOp.lineTo cx (baseY + h * 0.22),
   DrawOp.lineTo (cx - w * 0.22) baseY, DrawOp.closePath, DrawOp.fill,
   DrawOp.setStrokeStyle "#f8fafc", DrawOp.setLineWidth 2, DrawOp.stroke,
   DrawOp.setLineWidth 1, DrawOp.beginPath, DrawOp.moveTo cx (baseY - h * 0.18),
   DrawOp.lineTo cx (baseY + h * 0.18), DrawOp.stroke, DrawOp.restore]

/-- `drawFlatDiamond` from the source; also returns the diamond's points. -/
def drawFlatDiamond (cx cy rx ry : ℚ) (fillColor strokeColor : String)
    (strokeWidth alpha : ℚ) : List DrawOp × List Vec2 :=
  let pts : List Vec2 := [⟨cx, cy - ry⟩, ⟨cx + rx, cy⟩, ⟨cx, cy + ry⟩, ⟨cx - rx, cy⟩]
  ([DrawOp.save, DrawOp.setGlobalAlpha alpha] ++
    drawPolygon pts fillColor (some strokeColor) strokeWidth ++ [DrawOp.restore],
   pts)

inductive SportsType where
  | basketball | soccer | football | baseball
  deriving DecidableEq, Repr

/-- `drawSportsField` from the source. -/
def drawSportsField (x y w h : ℚ) (type : SportsType) : List DrawOp :=
  let cx := x + w * 0.5
  let cy := y + h * 0.82
  let rx := w * 0.24
  let ry := h * 0.15
  let fillColor := if type = SportsType.basketball then "#0ea5e9" else "#16a34a"
  let d := (drawFlatDiamond cx cy rx ry fillColor "rgba(248, 250, 252, 0.75)" 2 0.9).1
  let markings : List DrawOp :=
    match type with
    | .basketball =>
        [DrawOp.beginPath, DrawOp.moveTo (cx - rx * 0.45) cy,
         DrawOp.lineTo (cx + rx * 0.45) cy, DrawOp.stroke, DrawOp.beginPath,
         DrawOp.arc cx cy (min rx ry * 0.25) 0 2, DrawOp.stroke]
    | .soccer | .football =>
        [DrawOp.beginPath, DrawOp.moveTo cx (cy - ry * 0.85),
         DrawOp.lineTo cx (cy + ry * 0.85), DrawOp.stroke, DrawOp.beginPath,
         DrawOp.arc cx cy (min rx ry * 0.22) 0 2, DrawOp.stroke]
    | .baseball =>
        (drawFlatDiamond cx (cy + ry * 0.2) (rx * 0.45) (ry * 0.35)
          "rgba(245, 158, 11, 0.85)" "rgba(248, 250, 252, 0.65)" 1 0.85).1
  d ++ [DrawOp.save, DrawOp.setStrokeStyle "rgba(248, 250, 252, 0.85)",
    DrawOp.setLineWidth 1] ++ markings ++ [DrawOp.restore]

/-- `drawPool` from the source. -/
def drawPool (x y w h : ℚ) : List DrawOp :=
  let cx := x + w * 0.5
  let cy := y + h * 0.82
  (drawFlatDiamond cx cy (w * 0.23) (h * 0.14) "#0ea5e9"
    "rgba(248, 250, 252, 0.85)" 2 0.92).1 ++
  [DrawOp.save, DrawOp.setGlobalAlpha 0.35, DrawOp.setFillStyle "rgba(248, 250, 252, 1)",
   DrawOp.beginPath,
   DrawOp.ellipse (cx - w * 0.05) (cy - h * 0.03) (w * 0.06) (h * 0.02) 0 0 2,
   DrawOp.fill, DrawOp.restore]

/-- `drawTrack` from the source. -/
def drawTrack (x y w h : ℚ) : List DrawOp :=
  let cx := x + w * 0.5
  let cy := y + h * 0.82
  (drawFlatDiamond cx cy (w * 0.25) (h * 0.16) "#64748b"
    "rgba(15, 23, 42, 0.35)" 2 0.9).1 ++
  [DrawOp.save, DrawOp.setStrokeStyle "rgba(248, 250, 252, 0.75)", DrawOp.setLineWidth 1,
   DrawOp.beginPath, DrawOp.ellipse cx cy (w * 0.12) (h * 0.06) 0 0 2,
   DrawOp.stroke, DrawOp.restore]

/-- `drawPier` from the source. -/
def drawPier (x y w h : ℚ) : List DrawOp :=
  let cx := x + w * 0.5
  let cy := y + h * 0.82
  (drawFlatDiamond cx cy (w * 0.25) (h * 0.16) "#3b82f6"
    "rgba(248, 250, 252, 0.35)" 2 0.85).1 ++
  [DrawOp.save, DrawOp.setGlobalAlpha 0.75, DrawOp.setFillStyle "#a16207",
   DrawOp.fillRect (cx - w * 0.02) (cy - h * 0.08) (w * 0.04) (h * 0.18),
   DrawOp.fillRect (cx - w * 0.12) (cy - h * 0.02) (w * 0.24) (h * 0.05),
   DrawOp.restore]

/-- `drawUtilityExtras` from the source (water-tower cap, power-plant stack). -/
def drawUtilityExtras (spriteKey : String) (bounds : PrismBounds) (rng : Nat)
    (accentColor : String) : List DrawOp × Nat :=
  let towerPart : List DrawOp × Nat :=
    if spriteKey = "water_tower" then
      let xs := bounds.top.map (·.x)
      let ys := bounds.top.map (·.y)
      let cx := (minList xs + maxList xs) / 2
      let cy := (minList ys + maxList ys) / 2
      let (v, s1) := mulberry32Next rng
      ([DrawOp.save, DrawOp.setFillStyle accentColor, DrawOp.setGlobalAlpha 0.9,
        DrawOp.beginPath, DrawOp.arc cx cy (6 + v * 4) 0 2, DrawOp.fill,
        DrawOp.restore], s1)
    else ([], rng)
  let plantPart : List DrawOp × Nat :=
    if spriteKey = "power_plant" then
      let b0 := bounds.base.getD 0 ⟨0, 0⟩
      let b1 := bounds.base.getD 1 ⟨0, 0⟩
      let bx := (b0.x + b1.x) / 2
      let bY := (b0.y + b1.y) / 2
      let smoke := (List.range 3).foldl (fun acc i =>
        let (v1, s1) := mulberry32Next acc.2
        let sx := bx + (v1 - 0.5) * 10
        let sy := bY - 40 - (i : ℚ) * 10
        let (v2, s2) := mulberry32Next s1
        (acc.1 ++ [DrawOp.beginPath, DrawOp.arc sx sy (8 + v2 * 4) 0 2, DrawOp.fill],
         s2)) ([], towerPart.2)
      ([DrawOp.save, DrawOp.setFillStyle "#525252",
        DrawOp.fillRect (bx - 5) (bY - 40) 10 40,
        DrawOp.setGlobalAlpha 0.35, DrawOp.setFillStyle "#e5e7eb"] ++ smoke.1 ++
       [DrawOp.restore], smoke.2)
    else ([], towerPart.2)
  (towerPart.1 ++ plantPart.1, plantPart.2)

/-! ## Sheet kinds, variants, extension registry -/

/-- `ProceduralSpriteSheetVariant`. -/
inductive Variant where
  | main | construction | abandoned
  deriving DecidableEq, Repr

/-- The string this variant interpolates to in template literals. -/
def Variant.str : Variant → String
  | .main => "main"
  | .construction => "construction"
  | .abandoned => "abandoned"

/-- `ProceduralSpriteSheetKind`. -/
inductive Kind where
  | main | construction | abandoned | dense | modern | parks
  | parksConstruction | farms | shops | stations
  deriving DecidableEq, Repr

/-- The string this kind interpolates to in template literals. -/
def Kind.str : Kind → String
  | .main => "main"
  | .construction => "construction"
  | .abandoned => "abandoned"
  | .dense => "dense"
  | .modern => "modern"
  | .parks => "parks"
  | .parksConstruction => "parksConstruction"
  | .farms => "farms"
  | .shops => "shops"
  | .stations => "stations"

/-- `ProceduralPrefixRenderArgs` (without the context, which is the trace
itself, and the rng closure, whose state is threaded separately).  The source
field `prefix` is renamed `prefixPart`. -/
structure RenderArgs where
  spriteKey : String
  prefixPart : String
  key : String
  variant : Variant
  x : ℚ
  y : ℚ
  w : ℚ
  h : ℚ

/-- A `ProceduralPrefixRenderer`: draws ops, advances the RNG it was handed,
and returns `true` (handled), `false`, or `undefined` (`none`). -/
def Renderer := RenderArgs → Nat → List DrawOp × Nat × Option Bool

/-- The four lookup tables of `proceduralSpriteExtensions.ts`
(global/pack-scoped × prefix/exact-key), as a fixed state. -/
structure ExtensionRegistry where
  prefixRenderers : String → Option Renderer
  spriteKeyRenderers : String → Option Renderer
  prefixRenderersByPack : String → String → Option Renderer
  spriteKeyRenderersByPack : String → String → Option Renderer

/-- The registry with no registrations. -/
def emptyRegistry : ExtensionRegistry :=
  ⟨fun _ => none, fun _ => none, fun _ _ => none, fun _ _ => none⟩

/-- `getProceduralPrefixRenderer(prefix, packId?)`: the pack-scoped table is
consulted first when a pack id is supplied, then the global table. -/
def getProceduralPrefixRenderer (reg : ExtensionRegistry) (pre : String)
    (packId : Option String) : Option Renderer :=
  match packId with
  | some pid =>
      match reg.prefixRenderersByPack pid pre with
      | some sc => some sc
      | none => reg.prefixRenderers pre
  | none => reg.prefixRenderers pre

/-- `getProceduralSpriteRenderer(spriteKey, packId?)`. -/
def getProceduralSpriteRenderer (reg : ExtensionRegistry) (spriteKey : String)
    (packId : Option String) : Option Renderer :=
  match packId with
  | some pid =>
      match reg.spriteKeyRenderersByPack pid spriteKey with
      | some sc => some sc
      | none => reg.spriteKeyRenderers spriteKey
  | none => reg.spriteKeyRenderers spriteKey

/-! ## The per-cell tile renderer (`drawProceduralSpriteTile`) -/

/-- The built-in generation path of `drawProceduralSpriteTile` — everything
after the extension-point check: shadow, then tree / park / isometric prism
with windows, accents, utility extras and variant overlays.  Ends with the
final `ctx.restore()`. -/
def drawProceduralSpriteTileBase (pre : Option String) (key : String)
    (spriteKey : String) (variant : Variant) (x y w h : ℚ) (rng : Nat) :
    List DrawOp × Nat :=
  let style := styleForSpriteKey spriteKey
  let center : Vec2 := ⟨x + w * 0.5, y + h * 0.5⟩
  let baseY := y + h * 0.88
  let shadow := [DrawOp.setGlobalAlpha 0.25, DrawOp.setFillStyle "rgba(0,0,0,1)",
    DrawOp.beginPath, DrawOp.ellipse center.x baseY (w * 0.16) (h * 0.06) 0 0 2,
    DrawOp.fill, DrawOp.setGlobalAlpha 1]
  if style.kind = SpriteKind.tree then
    let tree := drawTree x y w h rng
    (shadow ++ tree.1 ++ [DrawOp.restore], tree.2)
  else if style.kind = SpriteKind.park then
    let sub : List DrawOp × Nat :=
      if key = "tennis" ∨ jsIncludes key "tennis" then (drawTennisCourt x y w h, rng)
      else if jsIncludes key "basketball" then (drawSportsField x y w h .basketball, rng)
      else if jsIncludes key "soccer" then (drawSportsField x y w h .soccer, rng)
      else if jsIncludes key "football" then (drawSportsField x y w h .football, rng)
      else if jsIncludes key "baseball" then (drawSportsField x y w h .baseball, rng)
      else if jsIncludes key "pool" then (drawPool x y w h, rng)
      else if jsIncludes key "go_kart" ∨ jsIncludes key "roller_coaster" then
        (drawTrack x y w h, rng)
      else if jsIncludes key "marina" ∨ jsIncludes key "pier" then
        (drawPier x y w h, rng)
      else drawPark x y w h rng
    (shadow ++ sub.1 ++ [DrawOp.restore], sub.2)
  else
    let isoUnitW := w * 0.26
    let isoUnitH := isoUnitW * 0.5
    let baseRgb := hexToRgb style.baseColor
    let roofRgb := hexToRgb (style.roofColor.getD style.baseColor)
    let outline := withAlpha "#0f172a" 0.35
    let variantTint : Option RGB :=
      match variant with
      | .construction => some ⟨255, 255, 255⟩
      | .abandoned => some ⟨0, 0, 0⟩
      | .main => none
    let tintStrength : ℚ :=
      match variant with
      | .construction => 0.18
      | .abandoned => 0.22
      | .main => 0
    let baseForVariant :=
      match variantTint with
      | some t => mix baseRgb t tintStrength
      | none => baseRgb
    let roofForVariant :=
      match variantTint with
      | some t => mix roofRgb t tintStrength
      | none => roofRgb
    let colors : PrismColors :=
      ⟨rgbToCss (lighten roofForVariant 0.15) 1, rgbToCss baseForVariant 1,
       rgbToCss (darken baseForVariant 0.18) 1, outline⟩
    let heightPx := h * 0.18 * style.height
    let prism := drawIsoPrism center baseY isoUnitW isoUnitH style.footprintX
      style.footprintY heightPx colors
    let bounds := prism.2
    let windows : List DrawOp × Nat :=
      if style.height ≥ 1.2 then
        let winColor := if key = "hospital" then "#ef4444"
          else if key = "police_station" then "#60a5fa" else "#f8fafc"
        let w1 := drawWindows bounds.rightF rng winColor
        let w2 := drawWindows bounds.leftF w1.2 winColor
        (w1.1 ++ w2.1, w2.2)
      else ([], rng)
    let accents : List DrawOp :=
      match style.accentColor with
      | some ac =>
          let xs := bounds.rightF.map (·.x)
          let ys := bounds.rightF.map (·.y)
          let minX := minList xs
          let maxX := maxList xs
          let minY := minList ys
          let maxY := maxList ys
          let signW := (maxX - minX) * 0.35
          let signH := (maxY - minY) * 0.12
          let sx := minX + (maxX - minX) * 0.52
          let sy := minY + (maxY - minY) * 0.42
          [DrawOp.save, DrawOp.setGlobalAlpha 0.9, DrawOp.setFillStyle ac,
           DrawOp.fillRect sx sy signW signH, DrawOp.restore]
      | none => []
    let utility : List DrawOp × Nat :=
      if style.kind = SpriteKind.utility ∨ key = "power_plant" ∨
          key = "water_tower" ∨ pre = some "station" then
        drawUtilityExtras key bounds windows.2 (style.accentColor.getD "#0f172a")
      else ([], windows.2)
    let constructionOps : List DrawOp :=
      if variant = Variant.construction then drawConstructionOverlay x y w h else []
    let abandonedPart : List DrawOp × Nat :=
      if variant = Variant.abandoned then drawAbandonedOverlay x y w h utility.2
      else ([], utility.2)
    (shadow ++ prism.1 ++ windows.1 ++ accents ++ utility.1 ++ constructionOps ++
      abandonedPart.1 ++ [DrawOp.restore], abandonedPart.2)

/-- `drawProceduralSpriteTile` from the source: clear the cell, offer the cell
to the *global* prefix renderer when the key has a prefix (the source passes
no pack id here and never consults the exact-key tables), then fall through
to the built-in path unless the renderer returned `true`. -/
def drawProceduralSpriteTile (reg : ExtensionRegistry) (spriteKey : String)
    (variant : Variant) (x y w h : ℚ) (rng : Nat) : List DrawOp × Nat :=
  let sp := splitProceduralKey spriteKey
  let head := [DrawOp.save, DrawOp.clearRect x y w h]
  match sp.prefixPart with
  | some p =>
      match getProceduralPrefixRenderer reg p none with
      | some ext =>
          let r := ext ⟨spriteKey, p, sp.key, variant, x, y, w, h⟩ rng
          if r.2.2 = some true then (head ++ r.1 ++ [DrawOp.restore], r.2.1)
          else
            let base := drawProceduralSpriteTileBase (some p) sp.key spriteKey
              variant x y w h r.2.1
            (head ++ r.1 ++ base.1, base.2)
      | none =>
          let base := drawProceduralSpriteTileBase (some p) sp.key spriteKey
            variant x y w h rng
          (head ++ base.1, base.2)
  | none =>
      let base := drawProceduralSpriteTileBase none sp.key spriteKey
        variant x y w h rng
      (head ++ base.1, base.2)

/-! ## Sprite packs and the sheet generators -/

/-- A grid position in a per-kind cell map. -/
structure Pos where
  col : Int
  row : Int
  deriving DecidableEq, Repr

/-- The `procedural` descriptor `{tileWidth, tileHeight, seed?}`. -/
structure ProceduralPackConfig where
  tileWidth : ℚ
  tileHeight : ℚ
  seed : Option Nat
  deriving DecidableEq, Repr

/-- The `SpritePack` descriptor (`renderConfig.ts` is outside the shown
sources; the fields are those read by the generator, the provider and the
registry, with per-kind cell maps as insertion-ordered association lists
mirroring `Object.entries`).  `name`, `src`, `constructionSrc`,
`abandonedSrc` and `previewSrc` are carried along so that theorems about
what generation does *not* depend on are meaningful. -/
structure SpritePack where
  id : String
  name : String
  src : String
  constructionSrc : String
  abandonedSrc : String
  previewSrc : String
  cols : Nat
  rows : Nat
  layout : String
  spriteOrder : List String
  denseVariants : Option (List (String × List Pos))
  modernVariants : Option (List (String × List Pos))
  parksBuildings : Option (List (String × Pos))
  parksCols : Option Nat
  parksRows : Option Nat
  farmsVariants : Option (List (String × List Pos))
  farmsCols : Option Nat
  farmsRows : Option Nat
  shopsVariants : Option (List (String × List Pos))
  shopsCols : Option Nat
  shopsRows : Option Nat
  stationsVariants : Option (List (String × List Pos))
  stationsCols : Option Nat
  stationsRows : Option Nat
  procedural : Option ProceduralPackConfig

/-- `isProceduralSpritePack`: `!!(pack as any).procedural` — only the
descriptor is consulted. -/
def isProceduralSpritePack (pack : SpritePack) : Bool := pack.procedural.isSome

/-- `getProceduralConfig`: descriptor, or the default `{256, 213, seed: 0}`. -/
def getProceduralConfig (pack : SpritePack) : ProceduralPackConfig :=
  pack.procedural.getD ⟨256, 213, some 0⟩

/-- The browser environment: whether `document` exists and whether
`canvas.getContext('2d')` yields a context. -/
structure Env where
  hasDocument : Bool
  hasCtx : Bool

/-- The error taxonomy of the generation entrypoints. -/
inductive GenError where
  | notProcedural (packId : String)
  | noDocument
  deriving DecidableEq, Repr

/-- A generated sheet: canvas dimensions plus the Canvas 2D call trace. -/
structure Canvas where
  width : Int
  height : Int
  ops : List DrawOp
  deriving DecidableEq, Repr

/-- The per-cell seed string of the `spriteOrder` path
(`generateFromSpriteOrder`): `` `${seed}:${pack.id}:${variant}:${spriteKey}` ``. -/
def spriteOrderCellSeedString (seed : Nat) (packId : String) (variant : Variant)
    (spriteKey : String) : String :=
  toString seed ++ ":" ++ packId ++ ":" ++ variant.str ++ ":" ++ spriteKey

/-- A cell of the explicit cell-map path. -/
structure Cell where
  col : Int
  row : Int
  spriteKey : String
  salt : Option String
  deriving DecidableEq, Repr

/-- The per-cell seed string of the cell-map path (`generateFromCells`):
`` `${seed}:${pack.id}:${kind}:${variant}:${cell.spriteKey}${salt}` `` where
the `:${salt}` suffix is appended only for a truthy (non-empty) salt. -/
def cellMapCellSeedString (seed : Nat) (packId : String) (kind : Kind)
    (variant : Variant) (spriteKey : String) (salt : Option String) : String :=
  let saltPart :=
    match salt with
    | some s => if s.isEmpty then "" else ":" ++ s
    | none => ""
  toString seed ++ ":" ++ packId ++ ":" ++ kind.str ++ ":" ++ variant.str ++
    ":" ++ spriteKey ++ saltPart

/-- `requireBrowser` as a check on the environment. -/
def requireBrowser (env : Env) : Except GenError Unit :=
  if env.hasDocument then Except.ok () else Except.error GenError.noDocument

/-- `generateFromSpriteOrder`: lay the pack's `spriteOrder` keys onto the
main grid (row-major, or column-major when `layout === 'column'`), skipping
out-of-range positions, and draw each placed cell with a per-cell RNG. -/
def generateFromSpriteOrder (env : Env) (reg : ExtensionRegistry)
    (pack : SpritePack) (variant : Variant) (procedural : ProceduralPackConfig) :
    Except GenError Canvas :=
  match requireBrowser env with
  | Except.error e => Except.error e
  | Except.ok _ =>
    let tileW : Int := max 16 (Int.floor procedural.tileWidth)
    let tileH : Int := max 16 (Int.floor procedural.tileHeight)
    let seed := procedural.seed.getD 0
    let sheetW := tileW * pack.cols
    let sheetH := tileH * pack.rows
    if ¬env.hasCtx then Except.ok ⟨sheetW, sheetH, []⟩
    else
      let body := pack.spriteOrder.enum.foldl (fun acc cell =>
        let index := cell.1
        let spriteKey := cell.2
        let col : Nat := if pack.layout = "column" then index / pack.rows
          else index % pack.cols
        let row : Nat := if pack.layout = "column" then index % pack.rows
          else index / pack.cols
        if col ≥ pack.cols ∨ row ≥ pack.rows then acc
        else
          let cellX : ℚ := (col : ℚ) * (tileW : ℚ)
          let cellY : ℚ := (row : ℚ) * (tileH : ℚ)
          let rngSeed := hashStringToSeed
            (spriteOrderCellSeedString seed pack.id variant spriteKey)
          acc ++ (drawProceduralSpriteTile reg spriteKey variant cellX cellY
            (tileW : ℚ) (tileH : ℚ) rngSeed).1) []
      Except.ok ⟨sheetW, sheetH,
        [DrawOp.setImageSmoothing false,
         DrawOp.clearRect 0 0 (sheetW : ℚ) (sheetH : ℚ)] ++ body⟩

/-- `generateProceduralSpriteSheet(pack, variant)`: throws unless the pack
carries a procedural descriptor, then generates from `spriteOrder`. -/
def generateProceduralSpriteSheet (env : Env) (reg : ExtensionRegistry)
    (pack : SpritePack) (variant : Variant) : Except GenError Canvas :=
  if ¬isProceduralSpritePack pack then
    Except.error (GenError.notProcedural pack.id)
  else generateFromSpriteOrder env reg pack variant (getProceduralConfig pack)

/-- `generateFromCells`: draw an explicit cell list onto a `cols × rows`
grid, skipping out-of-range cells. -/
def generateFromCells (env : Env) (reg : ExtensionRegistry) (pack : SpritePack)
    (kind : Kind) (cols rows : Nat) (variant : Variant) (cells : List Cell) :
    Except GenError Canvas :=
  match requireBrowser env with
  | Except.error e => Except.error e
  | Except.ok _ =>
    let procedural := getProceduralConfig pack
    let tileW : Int := max 16 (Int.floor procedural.tileWidth)
    let tileH : Int := max 16 (Int.floor procedural.tileHeight)
    let seed := procedural.seed.getD 0
    let sheetW := tileW * cols
    let sheetH := tileH * rows
    if ¬env.hasCtx then Except.ok ⟨sheetW, sheetH, []⟩
    else
      let body := cells.foldl (fun acc cell =>
        if cell.col < 0 ∨ cell.col ≥ (cols : Int) ∨ cell.row < 0 ∨
            cell.row ≥ (rows : Int) then acc
        else
          let cellX : ℚ := (cell.col : ℚ) * (tileW : ℚ)
          let cellY : ℚ := (cell.row : ℚ) * (tileH : ℚ)
          let rngSeed := hashStringToSeed
            (cellMapCellSeedString seed pack.id kind variant cell.spriteKey cell.salt)
          acc ++ (drawProceduralSpriteTile reg cell.spriteKey variant cellX cellY
            (tileW : ℚ) (tileH : ℚ) rngSeed).1) []
      Except.ok ⟨sheetW, sheetH,
        [DrawOp.setImageSmoothing false,
         DrawOp.clearRect 0 0 (sheetW : ℚ) (sheetH : ℚ)] ++ body⟩

/-- The cell list built from a multi-variant cell map
(`Object.entries(map)` with `variants.forEach((pos, i) => ...)`). -/
def cellsOfVariantMap (kindPrefix : String) (entries : List (String × List Pos)) :
    List Cell :=
  entries.flatMap (fun e =>
    e.2.enum.map (fun iv =>
      ⟨iv.2.col, iv.2.row, kindPrefix ++ ":" ++ e.1, some (toString iv.1)⟩))

/-- `generateProceduralSpriteSheetForKind(pack, kind)`: `spriteOrder` layout
for the three main-grid variants; the cell-map path for the rest, returning
`none` ("no sheet") when the pack lacks the matching map. -/
def generateProceduralSpriteSheetForKind (env : Env) (reg : ExtensionRegistry)
    (pack : SpritePack) (kind : Kind) : Except GenError (Option Canvas) :=
  match kind with
  | .main => Option.some <$>
      generateFromSpriteOrder env reg pack .main (getProceduralConfig pack)
  | .construction => Option.some <$>
      generateFromSpriteOrder env reg pack .construction (getProceduralConfig pack)
  | .abandoned => Option.some <$>
      generateFromSpriteOrder env reg pack .abandoned (getProceduralConfig pack)
  | .dense =>
      match pack.denseVariants with
      | none => Except.ok none
      | some m => Option.some <$> generateFromCells env reg pack .dense
          pack.cols pack.rows .main (cellsOfVariantMap "dense" m)
  | .modern =>
      match pack.modernVariants with
      | none => Except.ok none
      | some m => Option.some <$> generateFromCells env reg pack .modern
          pack.cols pack.rows .main (cellsOfVariantMap "modern" m)
  | .parks =>
      match pack.parksBuildings with
      | none => Except.ok none
      | some m => Option.some <$> generateFromCells env reg pack .parks
          (pack.parksCols.getD pack.cols) (pack.parksRows.getD pack.rows) .main
          (m.map (fun e => ⟨e.2.col, e.2.row, "park" ++ ":" ++ e.1, none⟩))
  | .parksConstruction =>
      match pack.parksBuildings with
      | none => Except.ok none
      | some m => Option.some <$> generateFromCells env reg pack .parksConstruction
          (pack.parksCols.getD pack.cols) (pack.parksRows.getD pack.rows)
          .construction
          (m.map (fun e => ⟨e.2.col, e.2.row, "park" ++ ":" ++ e.1, none⟩))
  | .farms =>
      match pack.farmsVariants with
      | none => Except.ok none
      | some m => Option.some <$> generateFromCells env reg pack .farms
          (pack.farmsCols.getD pack.cols) (pack.farmsRows.getD pack.rows) .main
          (cellsOfVariantMap "farm" m)
  | .shops =>
      match pack.shopsVariants with
      | none => Except.ok none
      | some m => Option.some <$> generateFromCells env reg pack .shops
          (pack.shopsCols.getD pack.cols) (pack.shopsRows.getD pack.rows) .main
          (cellsOfVariantMap "shop" m)
  | .stations =>
      match pack.stationsVariants with
      | none => Except.ok none
      | some m => Option.some <$> generateFromCells env reg pack .stations
          (pack.stationsCols.getD pack.cols) (pack.stationsRows.getD pack.rows)
          .main (cellsOfVariantMap "station" m)

/-! ## Asset mode (`proceduralAssetsMode.ts`) -/

inductive ProceduralAssetsMode where
  | off | fallback | force
  deriving DecidableEq, Repr

/-- A JS value as far as `typeof value !== 'string'` is concerned. -/
inductive JSValue where
  | str (s : String)
  | num (q : ℚ)
  | boolean (b : Bool)
  | nullv
  | undef
  deriving DecidableEq, Repr

/-- JS `String#trim` (ASCII whitespace, which covers every value the
configuration sources produce). -/
def jsTrim (s : String) : String :=
  let ws : List Char := [' ', '\t', '\n', '\r', '\x0b', '\x0c']
  String.mk ((s.data.dropWhile (fun c => c ∈ ws)).reverse.dropWhile
    (fun c => c ∈ ws)).reverse

/-- JS `String#toLowerCase` on the ASCII range. -/
def jsToLower (s : String) : String := String.mk (s.data.map Char.toLower)

/-- `normalizeProceduralAssetsMode` from the source. -/
def normalizeProceduralAssetsMode (value : JSValue) : Option ProceduralAssetsMode :=
  match value with
  | .str s =>
      let v := jsToLower (jsTrim s)
      if v = "off" ∨ v = "false" ∨ v = "0" ∨ v = "disabled" then
        some ProceduralAssetsMode.off
      else if v = "fallback" ∨ v = "auto" then some ProceduralAssetsMode.fallback
      else if v = "force" ∨ v = "always" ∨ v = "on" ∨ v = "true" ∨ v = "1" then
        some ProceduralAssetsMode.force
      else none
  | _ => none

/-- The configuration sources consulted by `getProceduralAssetsMode`. -/
structure ModeEnv where
  hasWindow : Bool
  storageThrows : Bool
  stored : JSValue
  envMode : JSValue
  envModeCompat : JSValue

/-- `getProceduralAssetsMode` from the source: runtime localStorage override,
then the two build-time variables, then `'off'`. -/
def getProceduralAssetsMode (menv : ModeEnv) : ProceduralAssetsMode :=
  let fromStore :=
    if menv.hasWindow ∧ ¬menv.storageThrows then
      normalizeProceduralAssetsMode menv.stored
    else none
  match fromStore with
  | some m => m
  | none =>
      match normalizeProceduralAssetsMode menv.envMode with
      | some m => m
      | none =>
          match normalizeProceduralAssetsMode menv.envModeCompat with
          | some m => m
          | none => ProceduralAssetsMode.off

/-! ## Pack registry (`spritePackRegistry.ts`) -/

/-- `registerSpritePack(pack, options)` acting on the `SPRITE_PACKS` array:
same id present — replace in place when `options.replace`, otherwise leave
the list untouched; unseen id — append. -/
def registerSpritePack (packs : List SpritePack) (pack : SpritePack)
    (replace : Bool) : List SpritePack :=
  match packs.findIdx? (fun p => p.id = pack.id) with
  | some idx => if replace then packs.set idx pack else packs
  | none => packs ++ [pack]

/-! ## Helper lemmas -/

lemma set_self_of_getElem {α : Type _} (l : List α) (i : Nat) (a : α)
    (hi : i < l.length) (ha : l[i] = a) : l.set i a = l := by
  apply List.ext_getElem?
  intro j
  by_cases hij : i = j
  · subst hij
    rw [List.getElem?_set_self hi, List.getElem?_eq_getElem hi, ha]
  · exact List.getElem?_set_ne hij

lemma registerSpritePack_nodup_step (packs : List SpritePack) (pack : SpritePack)
    (replace : Bool) (h : (packs.map (fun p => p.id)).Nodup) :
    ((registerSpritePack packs pack replace).map (fun p => p.id)).Nodup := by
  unfold registerSpritePack
  cases hfind : packs.findIdx? (fun p => decide (p.id = pack.id)) with
  | none =>
      have hne : ∀ x ∈ packs, x.id ≠ pack.id := by
        intro x hx
        have := (List.findIdx?_eq_none_iff.mp hfind) x hx
        simpa using this
      simp only [List.map_append, List.map_cons, List.map_nil]
      rw [List.nodup_append]
      refine ⟨h, List.nodup_singleton _, ?_⟩
      rw [List.disjoint_singleton]
      intro hmem
      obtain ⟨x, hx, hxid⟩ := List.mem_map.mp hmem
      exact hne x hx hxid
  | some idx =>
      cases replace with
      | false => simpa using h
      | true =>
          obtain ⟨hlt, hp, -⟩ := List.findIdx?_eq_some_iff_getElem.mp hfind
          have hid : packs[idx].id = pack.id := by simpa using hp
          have hlt2 : idx < (packs.map (fun p => p.id)).length := by simpa using hlt
          have hmaps : (packs.set idx pack).map (fun p => p.id) =
              packs.map (fun p => p.id) := by
            rw [List.map_set]
            apply set_self_of_getElem _ _ _ hlt2
            rw [List.getElem_map]
            exact hid
          simpa [hmaps] using h

lemma foldl_skip_eq_flatMap {α β : Type _} (P : α → Prop) [DecidablePred P]
    (F : α → List β) :
    ∀ (l : List α) (a : List β),
      l.foldl (fun acc x => if P x then acc else acc ++ F x) a =
        a ++ l.flatMap (fun x => if P x then [] else F x) := by
  intro l
  induction l with
  | nil => intro a; simp
  | cons hd tl ih =>
      intro a
      by_cases hp : P hd <;> simp [List.foldl_cons, ih, hp, List.append_assoc]

lemma generateFromSpriteOrder_error (env : Env) (reg : ExtensionRegistry)
    (pack : SpritePack) (variant : Variant) (proc : ProceduralPackConfig)
    (e : GenError) (h : generateFromSpriteOrder env reg pack variant proc =
      Except.error e) : e = GenError.noDocument ∧ env.hasDocument = false := by
  unfold generateFromSpriteOrder requireBrowser at h
  cases hd : env.hasDocument with
  | false =>
      rw [hd] at h
      simp only [Bool.false_eq_true, if_false] at h
      cases h
      exact ⟨rfl, rfl⟩
  | true =>
      rw [hd] at h
      by_cases hc : env.hasCtx = true <;> simp [hc] at h

lemma generateFromCells_error (env : Env) (reg : ExtensionRegistry)
    (pack : SpritePack) (kind : Kind) (cols rows : Nat) (variant : Variant)
    (cells : List Cell) (e : GenError)
    (h : generateFromCells env reg pack kind cols rows variant cells =
      Except.error e) : e = GenError.noDocument ∧ env.hasDocument = false := by
  unfold generateFromCells requireBrowser at h
  cases hd : env.hasDocument with
  | false =>
      rw [hd] at h
      simp only [Bool.false_eq_true, if_false] at h
      cases h
      exact ⟨rfl, rfl⟩
  | true =>
      rw [hd] at h
      by_cases hc : env.hasCtx = true <;> simp [hc] at h

lemma splitProceduralKey_dense (k : String) :
    splitProceduralKey ("dense:" ++ k) = ⟨some "dense", k⟩ := by
  have hdata : ("dense:" ++ k).data =
      'd' :: 'e' :: 'n' :: 's' :: 'e' :: ':' :: k.data := by
    rw [String.data_append]; rfl
  unfold splitProceduralKey jsIndexOf
  rw [hdata]
  simp [List.findIdx?_cons]

lemma except_map_eq_error {α β ε : Type _} (f : α → β) (x : Except ε α) (e : ε)
    (h : f <$> x = Except.error e) : x = Except.error e := by
  cases x with
  | ok a => simp [Functor.map, Except.map] at h
  | error e' => simpa [Functor.map, Except.map] using h

lemma except_map_eq_ok {α β ε : Type _} (f : α → β) (x : Except ε α) (b : β)
    (h : f <$> x = Except.ok b) : ∃ a, x = Except.ok a ∧ b = f a := by
  cases x with
  | ok a =>
      refine ⟨a, rfl, ?_⟩
      simpa [Functor.map, Except.map] using h.symm
  | error e' => simp [Functor.map, Except.map] at h

lemma generateFromSpriteOrder_ok_dims (env : Env) (reg : ExtensionRegistry)
    (pack : SpritePack) (variant : Variant) (proc : ProceduralPackConfig)
    (c : Canvas) (h : generateFromSpriteOrder env reg pack variant proc =
      Except.ok c) :
    c.width = max 16 (Int.floor proc.tileWidth) * pack.cols ∧
    c.height = max 16 (Int.floor proc.tileHeight) * pack.rows := by
  unfold generateFromSpriteOrder requireBrowser at h
  cases hd : env.hasDocument with
  | false => rw [hd] at h; simp at h
  | true =>
      rw [hd] at h
      by_cases hc : env.hasCtx = true <;> simp [hc] at h <;>
        first
        | exact ⟨rfl, rfl⟩
        | exact ⟨h.1.symm, h.2.1.symm⟩
        | (rw [← h]; exact ⟨rfl, rfl⟩)

lemma generateFromCells_ok_dims (env : Env) (reg : ExtensionRegistry)
    (pack : SpritePack) (kind : Kind) (cols rows : Nat) (variant : Variant)
    (cells : List Cell) (c : Canvas)
    (h : generateFromCells env reg pack kind cols rows variant cells =
      Except.ok c) :
    c.width = max 16 (Int.floor (getProceduralConfig pack).tileWidth) * cols ∧
    c.height = max 16 (Int.floor (getProceduralConfig pack).tileHeight) * rows := by
  unfold generateFromCells requireBrowser at h
  cases hd : env.hasDocument with
  | false => rw [hd] at h; simp at h
  | true =>
      rw [hd] at h
      by_cases hc : env.hasCtx = true <;> simp [hc] at h <;>
        first
        | exact ⟨rfl, rfl⟩
        | exact ⟨h.1.symm, h.2.1.symm⟩
        | (rw [← h]; exact ⟨rfl, rfl⟩)

lemma splitProceduralKey_nocolon (k : String) (h : ':' ∉ k.data) :
    splitProceduralKey k = ⟨none, k⟩ := by
  unfold splitProceduralKey jsIndexOf
  have : k.data.findIdx? (fun x => x = ':') = none := by
    rw [List.findIdx?_eq_none_iff]
    intro x hx
    simp only [decide_eq_false_iff_not]
    intro hcolon
    exact h (hcolon ▸ hx)
  rw [this]
  norm_num

/-! ## Verified claims -/

/-- **C7.** `styleForSpriteKey` is a pure, stable function of the key string,
and for every key `k` without a colon, `styleForSpriteKey ("dense:" ++ k)` is
exactly `styleForSpriteKey k` with the height multiplied by `1.25` and the
footprint multipliers by `1.05`, every other field unchanged. -/
theorem styleForSpriteKey_dense_adjustment (k : String) (h : ':' ∉ k.data) :
    (∀ k2 : String, k2 = k → styleForSpriteKey k2 = styleForSpriteKey k) ∧
    styleForSpriteKey ("dense:" ++ k) =
      { styleForSpriteKey k with
        height := (styleForSpriteKey k).height * 1.25
        footprintX := (styleForSpriteKey k).footprintX * 1.05
        footprintY := (styleForSpriteKey k).footprintY * 1.05 } := by
  constructor
  · intro k2 hk; rw [hk]
  · unfold styleForSpriteKey
    rw [splitProceduralKey_dense, splitProceduralKey_nocolon k h]
    rfl

/-- Witness for C7 at `k = "apartment_high"`. -/
theorem styleForSpriteKey_dense_adjustment_witness :
    styleForSpriteKey ("dense:" ++ "apartment_high") =
      { styleForSpriteKey "apartment_high" with
        height := (styleForSpriteKey "apartment_high").height * 1.25
        footprintX := (styleForSpriteKey "apartment_high").footprintX * 1.05
        footprintY := (styleForSpriteKey "apartment_high").footprintY * 1.05 } :=
  (styleForSpriteKey_dense_adjustment "apartment_high" (by decide)).2

/-- **C9.** `normalizeProceduralAssetsMode` maps (after trim + lowercase)
`off/false/0/disabled` to `off`, `fallback/auto` to `fallback`,
`force/always/on/true/1` to `force`, and every other string as well as every
non-string value to `null`; `getProceduralAssetsMode` defaults to `off` when
every configuration source is unrecognized. -/
theorem normalizeProceduralAssetsMode_aliases :
    (∀ s : String,
      normalizeProceduralAssetsMode (JSValue.str s) =
        (if jsToLower (jsTrim s) ∈ ["off", "false", "0", "disabled"] then
          some ProceduralAssetsMode.off
        else if jsToLower (jsTrim s) ∈ ["fallback", "auto"] then
          some ProceduralAssetsMode.fallback
        else if jsToLower (jsTrim s) ∈ ["force", "always", "on", "true", "1"] then
          some ProceduralAssetsMode.force
        else none)) ∧
    (∀ q, normalizeProceduralAssetsMode (JSValue.num q) = none) ∧
    (∀ b, normalizeProceduralAssetsMode (JSValue.boolean b) = none) ∧
    normalizeProceduralAssetsMode JSValue.nullv = none ∧
    normalizeProceduralAssetsMode JSValue.undef = none ∧
    (∀ menv : ModeEnv,
      normalizeProceduralAssetsMode menv.stored = none →
      normalizeProceduralAssetsMode menv.envMode = none →
      normalizeProceduralAssetsMode menv.envModeCompat = none →
      getProceduralAssetsMode menv = ProceduralAssetsMode.off) := by
  refine ⟨?_, fun _ => rfl, fun _ => rfl, rfl, rfl, ?_⟩
  · intro s
    simp only [normalizeProceduralAssetsMode, List.mem_cons,
      List.not_mem_nil, or_false]
  · intro menv h1 h2 h3
    unfold getProceduralAssetsMode
    split_ifs with hw
    · rw [h1, h2, h3]
    · rw [h2, h3]

/-- Witness for C9: every configuration source unrecognized falls through to
`off`; alias lookup at a concrete string. -/
theorem normalizeProceduralAssetsMode_aliases_witness :
    getProceduralAssetsMode
      ⟨true, false, JSValue.str "garbage", JSValue.num 3, JSValue.undef⟩ =
      ProceduralAssetsMode.off :=
  normalizeProceduralAssetsMode_aliases.2.2.2.2.2
    ⟨true, false, JSValue.str "garbage", JSValue.num 3, JSValue.undef⟩
    (by rfl) (by rfl) (by rfl)

/-- **C10.** `registerSpritePack` keeps the pack list's ids unique: an
existing id without `replace` is a silent no-op, with `replace` the pack is
substituted in place (same length, all other positions untouched), an unseen
id is appended, and any sequence of calls preserves distinctness of ids. -/
theorem registerSpritePack_id_unique (packs : List SpritePack) (pack : SpritePack) :
    (∀ idx, packs.findIdx? (fun p => p.id = pack.id) = some idx →
      registerSpritePack packs pack false = packs ∧
      registerSpritePack packs pack true = packs.set idx pack ∧
      (packs.set idx pack).length = packs.length ∧
      (∀ j, j ≠ idx → (packs.set idx pack)[j]? = packs[j]?)) ∧
    (packs.findIdx? (fun p => p.id = pack.id) = none →
      registerSpritePack packs pack false = packs ++ [pack] ∧
      registerSpritePack packs pack true = packs ++ [pack]) ∧
    (∀ calls : List (SpritePack × Bool),
      (packs.map (fun p => p.id)).Nodup →
      ((calls.foldl (fun ps c => registerSpritePack ps c.1 c.2) packs).map
        (fun p => p.id)).Nodup) := by
  refine ⟨?_, ?_, ?_⟩
  · intro idx hfind
    refine ⟨?_, ?_, List.length_set packs idx pack, ?_⟩
    · unfold registerSpritePack; rw [hfind]; rfl
    · unfold registerSpritePack; rw [hfind]; rfl
    · intro j hj
      exact List.getElem?_set_ne (fun h => hj h.symm)
  · intro hfind
    constructor <;> (unfold registerSpritePack; rw [hfind])
  · intro calls
    induction calls generalizing packs with
    | nil => intro h; simpa using h
    | cons c tl ih =>
        intro h
        exact ih (registerSpritePack packs c.1 c.2)
          (registerSpritePack_nodup_step packs c.1 c.2 h)

/-! ## Concrete fixtures -/

/-- A browser environment with a document and a 2D context. -/
def envStd : Env := ⟨true, true⟩

/-- A minimal pack whose cache-key src is tagged `procedural:` but that lacks
the procedural descriptor. -/
def emptyPack : SpritePack :=
  { id := "x", name := "X", src := "procedural:x:main", constructionSrc := ""
    abandonedSrc := "", previewSrc := "", cols := 1, rows := 1, layout := "row"
    spriteOrder := [], denseVariants := none, modernVariants := none
    parksBuildings := none, parksCols := none, parksRows := none
    farmsVariants := none, farmsCols := none, farmsRows := none
    shopsVariants := none, shopsCols := none, shopsRows := none
    stationsVariants := none, stationsCols := none, stationsRows := none
    procedural := none }

/-- Number of occurrences of one drawing operation in a trace. -/
def countOp : List DrawOp → DrawOp → Nat
  | [], _ => 0
  | x :: xs, op => (if x = op then 1 else 0) + countOp xs op

/-- A renderer that emits one marker operation and reports the cell handled. -/
def markerRenderer : Renderer := fun _ s => ([DrawOp.setFillStyle "MARKER-EXACT"], s, some true)

/-- A second marker renderer with a distinct marker operation. -/
def globalParkRenderer : Renderer :=
  fun _ s => ([DrawOp.setFillStyle "MARKER-GLOBAL-PARK"], s, some true)

/-- A registry holding a global exact-key renderer for `"tree"`, a global
prefix renderer for `"park"`, and a pack-scoped prefix renderer for
`("p", "park")`. -/
def regC3 : ExtensionRegistry :=
  { prefixRenderers := fun p => if p = "park" then some globalParkRenderer else none
    spriteKeyRenderers := fun k => if k = "tree" then some markerRenderer else none
    prefixRenderersByPack := fun pid p =>
      if pid = "p" ∧ p = "park" then some markerRenderer else none
    spriteKeyRenderersByPack := fun _ _ => none }

/-- JS `String#startsWith` over the character lists (kept kernel-reducible). -/
def jsStartsWith (s pre : String) : Bool := decide (pre.data <+: s.data)

/-- Modelled from the spec: "a pack is procedural iff it carries a procedural
descriptor OR its cache-key strings are tagged with a reserved prefix" — the
procedural-by-either-signal predicate that C4 claims every generation
entrypoint honours. -/
def isProceduralByEitherSignalSpec (pack : SpritePack) : Bool :=
  pack.procedural.isSome || jsStartsWith pack.src "procedural:"

/-- Modelled from the spec: the claimed per-cell seed string
`` `${globalSeed}:${packId}:${kind}:${variant}:${spriteKey}:${salt}` ``
(C2 asserts every generation path uses this format). -/
def claimedCellSeedString (seed : Nat) (packId : String) (kind : Kind)
    (variant : Variant) (spriteKey : String) (salt : Option String) : String :=
  toString seed ++ ":" ++ packId ++ ":" ++ kind.str ++ ":" ++ variant.str ++
    ":" ++ spriteKey ++ ":" ++ salt.getD ""

/-! ## Claims C3, C4, C5, C8 -/

/-- **C3 (amended).** The tile renderer consults only the *global* prefix
table: its output is invariant under any change to the exact-key tables and
the pack-scoped tables; when the key has a prefix with a registered global
renderer, a `true` return short-circuits the built-in path and anything else
falls through to it (with the RNG state the renderer left behind); otherwise
the built-in path runs directly. -/
theorem drawTile_dispatch (reg reg' : ExtensionRegistry) (spriteKey : String)
    (variant : Variant) (x y w h : ℚ) (s : Nat) :
    (reg.prefixRenderers = reg'.prefixRenderers →
      drawProceduralSpriteTile reg spriteKey variant x y w h s =
        drawProceduralSpriteTile reg' spriteKey variant x y w h s) ∧
    (∀ p k r ops s2 res, splitProceduralKey spriteKey = ⟨some p, k⟩ →
      reg.prefixRenderers p = some r →
      r ⟨spriteKey, p, k, variant, x, y, w, h⟩ s = (ops, s2, res) →
      (res = some true →
        drawProceduralSpriteTile reg spriteKey variant x y w h s =
          ([DrawOp.save, DrawOp.clearRect x y w h] ++ ops ++ [DrawOp.restore], s2)) ∧
      (res ≠ some true →
        drawProceduralSpriteTile reg spriteKey variant x y w h s =
          ([DrawOp.save, DrawOp.clearRect x y w h] ++ ops ++
            (drawProceduralSpriteTileBase (some p) k spriteKey variant x y w h s2).1,
           (drawProceduralSpriteTileBase (some p) k spriteKey variant x y w h s2).2))) ∧
    (∀ p k, splitProceduralKey spriteKey = ⟨some p, k⟩ →
      reg.prefixRenderers p = none →
      drawProceduralSpriteTile reg spriteKey variant x y w h s =
        ([DrawOp.save, DrawOp.clearRect x y w h] ++
          (drawProceduralSpriteTileBase (some p) k spriteKey variant x y w h s).1,
         (drawProceduralSpriteTileBase (some p) k spriteKey variant x y w h s).2)) ∧
    (∀ k, splitProceduralKey spriteKey = ⟨none, k⟩ →
      drawProceduralSpriteTile reg spriteKey variant x y w h s =
        ([DrawOp.save, DrawOp.clearRect x y w h] ++
          (drawProceduralSpriteTileBase none k spriteKey variant x y w h s).1,
         (drawProceduralSpriteTileBase none k spriteKey variant x y w h s).2)) := by
  refine ⟨?_, ?_, ?_, ?_⟩
  · intro hpre
    unfold drawProceduralSpriteTile getProceduralPrefixRenderer
    rw [hpre]
  · intro p k r ops s2 res hsp hreg hr
    constructor
    · intro hres
      subst hres
      unfold drawProceduralSpriteTile getProceduralPrefixRenderer
      simp only [hsp, hreg, hr]
      exact if_pos trivial
    · intro hres
      unfold drawProceduralSpriteTile getProceduralPrefixRenderer
      simp only [hsp, hreg, hr]
      rw [if_neg hres]
  · intro p k hsp hreg
    unfold drawProceduralSpriteTile getProceduralPrefixRenderer
    simp only [hsp, hreg]
  · intro k hsp
    unfold drawProceduralSpriteTile
    simp only [hsp]

/-- Witness for C3 at a concrete registry: the registered global `"park"`
prefix renderer handles a `park:x` cell and short-circuits the built-in path. -/
theorem drawTile_dispatch_witness :
    drawProceduralSpriteTile regC3 "park:x" Variant.main 0 0 16 16 7 =
      ([DrawOp.save, DrawOp.clearRect 0 0 16 16] ++
        [DrawOp.setFillStyle "MARKER-GLOBAL-PARK"] ++ [DrawOp.restore], 7) :=
  ((drawTile_dispatch regC3 regC3 "park:x" Variant.main 0 0 16 16 7).2.1
    "park" "x" globalParkRenderer [DrawOp.setFillStyle "MARKER-GLOBAL-PARK"] 7
    (some true) (by decide) rfl rfl).1 rfl

/-- **C3 counterexample.** A global exact-key renderer for `"tree"` and a
pack-scoped `("p", "park")` prefix renderer are both registered and reachable
through the registry accessors, yet drawing is unaffected by the exact-key
entry (identical to the empty registry, marker never painted), and for a
`park:x` cell the *global* prefix renderer wins over the pack-scoped one —
contradicting the claimed pack-scoped-first, exact-key-highest resolution
order. -/
theorem drawTile_dispatch_counterexample :
    (getProceduralSpriteRenderer regC3 "tree" none).isSome = true ∧
    drawProceduralSpriteTile regC3 "tree" Variant.main 0 0 16 16 7 =
      drawProceduralSpriteTile emptyRegistry "tree" Variant.main 0 0 16 16 7 ∧
    countOp (drawProceduralSpriteTile regC3 "tree" Variant.main 0 0 16 16 7).1
      (DrawOp.setFillStyle "MARKER-EXACT") = 0 ∧
    getProceduralPrefixRenderer regC3 "park" (some "p") = some markerRenderer ∧
    drawProceduralSpriteTile regC3 "park:x" Variant.main 0 0 16 16 7 =
      ([DrawOp.save, DrawOp.clearRect 0 0 16 16,
        DrawOp.setFillStyle "MARKER-GLOBAL-PARK", DrawOp.restore], 7) :=
  ⟨rfl, rfl, by decide, rfl, rfl⟩

/-- **C4 (amended).** `isProceduralSpritePack` consults only the descriptor,
and `generateProceduralSpriteSheet` raises its configuration error exactly
when the descriptor is absent — a `procedural:`-tagged src does not rescue a
descriptorless pack on this entrypoint. -/
theorem generateSheet_rejects_iff_no_descriptor (env : Env)
    (reg : ExtensionRegistry) (pack : SpritePack) (variant : Variant) :
    isProceduralSpritePack pack = pack.procedural.isSome ∧
    (generateProceduralSpriteSheet env reg pack variant =
        Except.error (GenError.notProcedural pack.id) ↔
      pack.procedural = none) := by
  refine ⟨rfl, ?_⟩
  unfold generateProceduralSpriteSheet isProceduralSpritePack
  cases hp : pack.procedural with
  | none => simp
  | some cfg =>
      simp only [Option.isSome_some, Bool.not_true, Bool.false_eq_true,
        if_false, reduceCtorEq, iff_false]
      intro h
      obtain ⟨he, -⟩ := generateFromSpriteOrder_error env reg pack variant
        (getProceduralConfig pack) _ h
      exact absurd he (by simp)

/-- Witness for C4: a pack with a descriptor is never rejected with the
configuration error (here the iff's reverse direction at a concrete pack). -/
theorem generateSheet_rejects_iff_no_descriptor_witness :
    generateProceduralSpriteSheet envStd emptyRegistry emptyPack Variant.main =
      Except.error (GenError.notProcedural "x") :=
  (generateSheet_rejects_iff_no_descriptor envStd emptyRegistry emptyPack
    Variant.main).2.mpr rfl

/-- **C4 counterexample.** `emptyPack` is procedural by the spec's
either-signal predicate (its src starts with `procedural:`), yet
`generateProceduralSpriteSheet` rejects it because it lacks the descriptor —
the claim that such a pack "is generated, not rejected" fails. -/
theorem generateSheet_src_tag_counterexample :
    isProceduralByEitherSignalSpec emptyPack = true ∧
    emptyPack.procedural = none ∧
    generateProceduralSpriteSheet envStd emptyRegistry emptyPack Variant.main =
      Except.error (GenError.notProcedural "x") := by
  exact ⟨rfl, rfl, rfl⟩

/-- **C5.** A cell-mapped kind whose required variant map is absent yields
`Except.ok none` ("no sheet", no exception, not even an environment check);
and the only error any kind can surface is the missing-`document`
environment error. -/
theorem forKind_unsupported_and_errors (env : Env) (reg : ExtensionRegistry)
    (pack : SpritePack) (kind : Kind) :
    ((kind = Kind.dense ∧ pack.denseVariants = none) ∨
     (kind = Kind.modern ∧ pack.modernVariants = none) ∨
     ((kind = Kind.parks ∨ kind = Kind.parksConstruction) ∧
       pack.parksBuildings = none) ∨
     (kind = Kind.farms ∧ pack.farmsVariants = none) ∨
     (kind = Kind.shops ∧ pack.shopsVariants = none) ∨
     (kind = Kind.stations ∧ pack.stationsVariants = none) →
      generateProceduralSpriteSheetForKind env reg pack kind = Except.ok none) ∧
    (∀ e, generateProceduralSpriteSheetForKind env reg pack kind =
        Except.error e →
      e = GenError.noDocument ∧ env.hasDocument = false) := by
  constructor
  · intro h
    rcases h with ⟨hk, hm⟩ | ⟨hk, hm⟩ | ⟨hk | hk, hm⟩ | ⟨hk, hm⟩ | ⟨hk, hm⟩ |
      ⟨hk, hm⟩ <;> subst hk <;>
      simp [generateProceduralSpriteSheetForKind, hm]
  · intro e he
    cases kind <;> simp only [generateProceduralSpriteSheetForKind] at he
    case main =>
      exact generateFromSpriteOrder_error _ _ _ _ _ _
        (except_map_eq_error _ _ _ he)
    case construction =>
      exact generateFromSpriteOrder_error _ _ _ _ _ _
        (except_map_eq_error _ _ _ he)
    case abandoned =>
      exact generateFromSpriteOrder_error _ _ _ _ _ _
        (except_map_eq_error _ _ _ he)
    case dense =>
      cases hm : pack.denseVariants with
      | none => rw [hm] at he; cases he
      | some m =>
          rw [hm] at he
          exact generateFromCells_error _ _ _ _ _ _ _ _ _
            (except_map_eq_error _ _ _ he)
    case modern =>
      cases hm : pack.modernVariants with
      | none => rw [hm] at he; cases he
      | some m =>
          rw [hm] at he
          exact generateFromCells_error _ _ _ _ _ _ _ _ _
            (except_map_eq_error _ _ _ he)
    case parks =>
      cases hm : pack.parksBuildings with
      | none => rw [hm] at he; cases he
      | some m =>
          rw [hm] at he
          exact generateFromCells_error _ _ _ _ _ _ _ _ _
            (except_map_eq_error _ _ _ he)
    case parksConstruction =>
      cases hm : pack.parksBuildings with
      | none => rw [hm] at he; cases he
      | some m =>
          rw [hm] at he
          exact generateFromCells_error _ _ _ _ _ _ _ _ _
            (except_map_eq_error _ _ _ he)
    case farms =>
      cases hm : pack.farmsVariants with
      | none => rw [hm] at he; cases he
      | some m =>
          rw [hm] at he
          exact generateFromCells_error _ _ _ _ _ _ _ _ _
            (except_map_eq_error _ _ _ he)
    case shops =>
      cases hm : pack.shopsVariants with
      | none => rw [hm] at he; cases he
      | some m =>
          rw [hm] at he
          exact generateFromCells_error _ _ _ _ _ _ _ _ _
            (except_map_eq_error _ _ _ he)
    case stations =>
      cases hm : pack.stationsVariants with
      | none => rw [hm] at he; cases he
      | some m =>
          rw [hm] at he
          exact generateFromCells_error _ _ _ _ _ _ _ _ _
            (except_map_eq_error _ _ _ he)

/-- Witness for C5: requesting kind `dense` on a pack without `denseVariants`
yields "no sheet" even in a document-less environment. -/
theorem forKind_unsupported_and_errors_witness :
    generateProceduralSpriteSheetForKind ⟨false, false⟩ emptyRegistry emptyPack
      Kind.dense = Except.ok none :=
  (forKind_unsupported_and_errors ⟨false, false⟩ emptyRegistry emptyPack
    Kind.dense).1 (Or.inl ⟨rfl, rfl⟩)

/-- The grid columns that apply to a kind (kind-specific override when
present, else the pack's main grid). -/
def kindCols (pack : SpritePack) : Kind → Nat
  | .parks | .parksConstruction => pack.parksCols.getD pack.cols
  | .farms => pack.farmsCols.getD pack.cols
  | .shops => pack.shopsCols.getD pack.cols
  | .stations => pack.stationsCols.getD pack.cols
  | _ => pack.cols

/-- The grid rows that apply to a kind. -/
def kindRows (pack : SpritePack) : Kind → Nat
  | .parks | .parksConstruction => pack.parksRows.getD pack.rows
  | .farms => pack.farmsRows.getD pack.rows
  | .shops => pack.shopsRows.getD pack.rows
  | .stations => pack.stationsRows.getD pack.rows
  | _ => pack.rows

/-- **C8 (amended).** Every generated sheet measures
`max 16 ⌊tileWidth⌋ · cols` by `max 16 ⌊tileHeight⌋ · rows` for the
`(cols, rows)` applying to the kind — equal to `tileWidth · cols` by
`tileHeight · rows` exactly when the descriptor's tile sizes are integers
at least 16. -/
theorem forKind_sheet_dims (env : Env) (reg : ExtensionRegistry)
    (pack : SpritePack) (kind : Kind) (c : Canvas)
    (h : generateProceduralSpriteSheetForKind env reg pack kind =
      Except.ok (some c)) :
    c.width = max 16 (Int.floor (getProceduralConfig pack).tileWidth) *
      kindCols pack kind ∧
    c.height = max 16 (Int.floor (getProceduralConfig pack).tileHeight) *
      kindRows pack kind := by
  cases kind <;> simp only [generateProceduralSpriteSheetForKind] at h
  case main =>
    obtain ⟨a, ha, hb⟩ := except_map_eq_ok _ _ _ h
    cases hb
    exact generateFromSpriteOrder_ok_dims _ _ _ _ _ _ ha
  case construction =>
    obtain ⟨a, ha, hb⟩ := except_map_eq_ok _ _ _ h
    cases hb
    exact generateFromSpriteOrder_ok_dims _ _ _ _ _ _ ha
  case abandoned =>
    obtain ⟨a, ha, hb⟩ := except_map_eq_ok _ _ _ h
    cases hb
    exact generateFromSpriteOrder_ok_dims _ _ _ _ _ _ ha
  case dense =>
    cases hm : pack.denseVariants with
    | none => rw [hm] at h; cases h
    | some m =>
        rw [hm] at h
        obtain ⟨a, ha, hb⟩ := except_map_eq_ok _ _ _ h
        cases hb
        exact generateFromCells_ok_dims _ _ _ _ _ _ _ _ _ ha
  case modern =>
    cases hm : pack.modernVariants with
    | none => rw [hm] at h; cases h
    | some m =>
        rw [hm] at h
        obtain ⟨a, ha, hb⟩ := except_map_eq_ok _ _ _ h
        cases hb
        exact generateFromCells_ok_dims _ _ _ _ _ _ _ _ _ ha
  case parks =>
    cases hm : pack.parksBuildings with
    | none => rw [hm] at h; cases h
    | some m =>
        rw [hm] at h
        obtain ⟨a, ha, hb⟩ := except_map_eq_ok _ _ _ h
        cases hb
        exact generateFromCells_ok_dims _ _ _ _ _ _ _ _ _ ha
  case parksConstruction =>
    cases hm : pack.parksBuildings with
    | none => rw [hm] at h; cases h
    | some m =>
        rw [hm] at h
        obtain ⟨a, ha, hb⟩ := except_map_eq_ok _ _ _ h
        cases hb
        exact generateFromCells_ok_dims _ _ _ _ _ _ _ _ _ ha
  case farms =>
    cases hm : pack.farmsVariants with
    | none => rw [hm] at h; cases h
    | some m =>
        rw [hm] at h
        obtain ⟨a, ha, hb⟩ := except_map_eq_ok _ _ _ h
        cases hb
        exact generateFromCells_ok_dims _ _ _ _ _ _ _ _ _ ha
  case shops =>
    cases hm : pack.shopsVariants with
    | none => rw [hm] at h; cases h
    | some m =>
        rw [hm] at h
        obtain ⟨a, ha, hb⟩ := except_map_eq_ok _ _ _ h
        cases hb
        exact generateFromCells_ok_dims _ _ _ _ _ _ _ _ _ ha
  case stations =>
    cases hm : pack.stationsVariants with
    | none => rw [hm] at h; cases h
    | some m =>
        rw [hm] at h
        obtain ⟨a, ha, hb⟩ := except_map_eq_ok _ _ _ h
        cases hb
        exact generateFromCells_ok_dims _ _ _ _ _ _ _ _ _ ha

/-- A pack whose descriptor asks for 8×8 tiles on a 2×2 grid. -/
def pack8 : SpritePack :=
  { emptyPack with cols := 2, rows := 2, procedural := some ⟨8, 8, some 0⟩ }

/-- The sheet `pack8` actually produces for kind `main`. -/
def canvas8 : Canvas :=
  ⟨32, 32, [DrawOp.setImageSmoothing false, DrawOp.clearRect 0 0 32 32]⟩

/-- Witness for C8 at `pack8`. -/
theorem forKind_sheet_dims_witness :
    canvas8.width =
      max 16 (Int.floor (getProceduralConfig pack8).tileWidth) *
        kindCols pack8 Kind.main ∧
    canvas8.height =
      max 16 (Int.floor (getProceduralConfig pack8).tileHeight) *
        kindRows pack8 Kind.main :=
  forKind_sheet_dims envStd emptyRegistry pack8 Kind.main canvas8 (by rfl)

/-- **C8 counterexample.** With `tileWidth = tileHeight = 8` and a 2×2 grid
the generated sheet is 32×32 — the claimed `tileWidth × cols = 16` fails,
because tile sizes are clamped to `max(16, ⌊·⌋)`. -/
theorem forKind_sheet_dims_counterexample :
    (generateProceduralSpriteSheetForKind envStd emptyRegistry pack8
        Kind.main).map (Option.map (fun c => (c.width, c.height))) =
      Except.ok (some (32, 32)) ∧
    (32 : Int) ≠ 8 * 2 :=
  ⟨rfl, by decide⟩

/-- Witness for C10: replacing the pack registered under id `"x"`. -/
theorem registerSpritePack_id_unique_witness :
    registerSpritePack [emptyPack] { emptyPack with name := "Y" } true =
      [emptyPack].set 0 { emptyPack with name := "Y" } :=
  ((registerSpritePack_id_unique [emptyPack]
    { emptyPack with name := "Y" }).1 0 rfl).2.1

/-! ## Claims C1, C2, C6 -/

/-- The trace `generateFromSpriteOrder` paints, cell by cell: each index of
`spriteOrder` is placed at `(i % cols, i / cols)` (row-major) or
`(i / rows, i % rows)` (column-major layout), positions outside the grid are
skipped silently, and each placed cell is drawn with the RNG seeded from
`spriteOrderCellSeedString`. -/
def spriteOrderExpectedOps (reg : ExtensionRegistry) (pack : SpritePack)
    (variant : Variant) (proc : ProceduralPackConfig) : List DrawOp :=
  let tileW : Int := max 16 (Int.floor proc.tileWidth)
  let tileH : Int := max 16 (Int.floor proc.tileHeight)
  let seed := proc.seed.getD 0
  [DrawOp.setImageSmoothing false,
   DrawOp.clearRect 0 0 ((tileW * pack.cols : Int) : ℚ) ((tileH * pack.rows : Int) : ℚ)] ++
  pack.spriteOrder.enum.flatMap (fun cell =>
    let col : Nat := if pack.layout = "column" then cell.1 / pack.rows
      else cell.1 % pack.cols
    let row : Nat := if pack.layout = "column" then cell.1 % pack.rows
      else cell.1 / pack.cols
    if col ≥ pack.cols ∨ row ≥ pack.rows then []
    else (drawProceduralSpriteTile reg cell.2 variant ((col : ℚ) * (tileW : ℚ))
      ((row : ℚ) * (tileH : ℚ)) (tileW : ℚ) (tileH : ℚ)
      (hashStringToSeed (spriteOrderCellSeedString seed pack.id variant cell.2))).1)

/-- The trace `generateFromCells` paints: out-of-grid cells are skipped, and
each remaining cell is drawn with the RNG seeded from
`cellMapCellSeedString` (which carries the kind and the optional salt). -/
def cellMapExpectedOps (reg : ExtensionRegistry) (pack : SpritePack)
    (kind : Kind) (cols rows : Nat) (variant : Variant) (cells : List Cell) :
    List DrawOp :=
  let proc := getProceduralConfig pack
  let tileW : Int := max 16 (Int.floor proc.tileWidth)
  let tileH : Int := max 16 (Int.floor proc.tileHeight)
  let seed := proc.seed.getD 0
  [DrawOp.setImageSmoothing false,
   DrawOp.clearRect 0 0 ((tileW * cols : Int) : ℚ) ((tileH * rows : Int) : ℚ)] ++
  cells.flatMap (fun cell =>
    if cell.col < 0 ∨ cell.col ≥ (cols : Int) ∨ cell.row < 0 ∨
        cell.row ≥ (rows : Int) then []
    else (drawProceduralSpriteTile reg cell.spriteKey variant
      ((cell.col : ℚ) * (tileW : ℚ)) ((cell.row : ℚ) * (tileH : ℚ))
      (tileW : ℚ) (tileH : ℚ)
      (hashStringToSeed (cellMapCellSeedString seed pack.id kind variant
        cell.spriteKey cell.salt))).1)

/-- **C6.** Ordered-grid layout: in a usable environment the `spriteOrder`
generator always succeeds (no exception however long the key list), and its
trace places key `i` at column `i % cols`, row `i / cols` under row-major
layout and at column `i / rows`, row `i % rows` under column-major layout,
silently skipping any index whose computed position falls outside the grid —
exactly the placement recorded by `spriteOrderExpectedOps`. -/
theorem spriteOrder_layout_correct (env : Env) (reg : ExtensionRegistry)
    (pack : SpritePack) (variant : Variant) (proc : ProceduralPackConfig)
    (hdoc : env.hasDocument = true) (hctx : env.hasCtx = true) :
    generateFromSpriteOrder env reg pack variant proc =
      Except.ok ⟨max 16 (Int.floor proc.tileWidth) * pack.cols,
        max 16 (Int.floor proc.tileHeight) * pack.rows,
        spriteOrderExpectedOps reg pack variant proc⟩ := by
  unfold generateFromSpriteOrder requireBrowser spriteOrderExpectedOps
  simp only [hdoc, hctx, if_true, not_true, Bool.not_true, if_false]
  rw [foldl_skip_eq_flatMap]
  simp

/-- Witness for C6 with a concrete 2×2 pack. -/
theorem spriteOrder_layout_correct_witness :
    generateFromSpriteOrder envStd emptyRegistry pack8 Variant.main
        (getProceduralConfig pack8) =
      Except.ok ⟨max 16 (Int.floor (getProceduralConfig pack8).tileWidth) * pack8.cols,
        max 16 (Int.floor (getProceduralConfig pack8).tileHeight) * pack8.rows,
        spriteOrderExpectedOps emptyRegistry pack8 Variant.main
          (getProceduralConfig pack8)⟩ :=
  spriteOrder_layout_correct envStd emptyRegistry pack8 Variant.main
    (getProceduralConfig pack8) rfl rfl

/-- **C2 (amended).** The per-cell seed string of the `spriteOrder` path is
`` `${seed}:${packId}:${variant}:${spriteKey}` `` — it contains *no* sheet
kind and *no* salt — while the cell-map path hashes
`` `${seed}:${packId}:${kind}:${variant}:${spriteKey}` `` with `:${salt}`
appended only when a non-empty salt is present; the generators draw every
placed cell with `mulberry32` seeded by the FNV-1a hash of exactly these
strings. -/
theorem cell_seed_strings (env : Env) (reg : ExtensionRegistry)
    (pack : SpritePack) (variant : Variant) (kind : Kind) (cols rows : Nat)
    (cells : List Cell) (proc : ProceduralPackConfig)
    (hdoc : env.hasDocument = true) (hctx : env.hasCtx = true) :
    (∀ (seed : Nat) (packId : String) (vr : Variant) (k2 : String),
      spriteOrderCellSeedString seed packId vr k2 =
        toString seed ++ ":" ++ packId ++ ":" ++ vr.str ++ ":" ++ k2) ∧
    (∀ (seed : Nat) (packId : String) (kd : Kind) (vr : Variant) (k2 : String)
        (salt : Option String),
      cellMapCellSeedString seed packId kd vr k2 salt =
        toString seed ++ ":" ++ packId ++ ":" ++ kd.str ++ ":" ++ vr.str ++
          ":" ++ k2 ++
          (match salt with
           | some s => if s.isEmpty then "" else ":" ++ s
           | none => "")) ∧
    generateFromSpriteOrder env reg pack variant proc =
      Except.ok ⟨max 16 (Int.floor proc.tileWidth) * pack.cols,
        max 16 (Int.floor proc.tileHeight) * pack.rows,
        spriteOrderExpectedOps reg pack variant proc⟩ ∧
    generateFromCells env reg pack kind cols rows variant cells =
      Except.ok ⟨max 16 (Int.floor (getProceduralConfig pack).tileWidth) * cols,
        max 16 (Int.floor (getProceduralConfig pack).tileHeight) * rows,
        cellMapExpectedOps reg pack kind cols rows variant cells⟩ := by
  refine ⟨fun _ _ _ _ => rfl, fun _ _ _ _ _ _ => rfl, ?_, ?_⟩
  · unfold generateFromSpriteOrder requireBrowser spriteOrderExpectedOps
    simp only [hdoc, hctx, if_true, not_true, Bool.not_true, if_false]
    rw [foldl_skip_eq_flatMap]
    simp
  · unfold generateFromCells requireBrowser cellMapExpectedOps
    simp only [hdoc, hctx, if_true, not_true, Bool.not_true, if_false]
    rw [foldl_skip_eq_flatMap]
    simp

/-- Witness for C2 at a concrete pack and cell list. -/
theorem cell_seed_strings_witness :
    spriteOrderCellSeedString 0 "p" Variant.main "tree" =
      toString 0 ++ ":" ++ "p" ++ ":" ++ Variant.main.str ++ ":" ++ "tree" :=
  (cell_seed_strings envStd emptyRegistry pack8 Variant.main Kind.dense 2 2 []
    (getProceduralConfig pack8) rfl rfl).1 0 "p" Variant.main "tree"

/-- **C2 counterexample.** On the `spriteOrder` path the seed string for the
`tree` cell of pack `p` with seed 0 is `"0:p:main:tree"`, not the claimed
`"0:p:main:main:tree:"` (`{seed}:{packId}:{kind}:{variant}:{spriteKey}:{salt}`),
and the two strings hash to different RNG seeds. -/
theorem cell_seed_strings_counterexample :
    spriteOrderCellSeedString 0 "p" Variant.main "tree" = "0:p:main:tree" ∧
    claimedCellSeedString 0 "p" Kind.main Variant.main "tree" none =
      "0:p:main:main:tree:" ∧
    spriteOrderCellSeedString 0 "p" Variant.main "tree" ≠
      claimedCellSeedString 0 "p" Kind.main Variant.main "tree" none ∧
    hashStringToSeed (spriteOrderCellSeedString 0 "p" Variant.main "tree") ≠
      hashStringToSeed (claimedCellSeedString 0 "p" Kind.main Variant.main
        "tree" none) := by
  refine ⟨rfl, rfl, by decide, by decide⟩

/-- **C1.** Generation is deterministic and a function only of the
generation-relevant pack fields: with the extension registry and environment
held fixed, two packs agreeing on id, grid geometry, layout, `spriteOrder`,
every per-kind variant map and grid override, and the procedural descriptor
(tile size and seed) generate identical sheets for every kind — the sheets do
not depend on `name`, `src`, or any other field, and there is no hidden
mutable state. -/
theorem generation_deterministic (p1 p2 : SpritePack)
    (hid : p1.id = p2.id) (hcols : p1.cols = p2.cols) (hrows : p1.rows = p2.rows)
    (hlayout : p1.layout = p2.layout) (horder : p1.spriteOrder = p2.spriteOrder)
    (hdense : p1.denseVariants = p2.denseVariants)
    (hmodern : p1.modernVariants = p2.modernVariants)
    (hparks : p1.parksBuildings = p2.parksBuildings)
    (hparksC : p1.parksCols = p2.parksCols) (hparksR : p1.parksRows = p2.parksRows)
    (hfarms : p1.farmsVariants = p2.farmsVariants)
    (hfarmsC : p1.farmsCols = p2.farmsCols) (hfarmsR : p1.farmsRows = p2.farmsRows)
    (hshops : p1.shopsVariants = p2.shopsVariants)
    (hshopsC : p1.shopsCols = p2.shopsCols) (hshopsR : p1.shopsRows = p2.shopsRows)
    (hstations : p1.stationsVariants = p2.stationsVariants)
    (hstationsC : p1.stationsCols = p2.stationsCols)
    (hstationsR : p1.stationsRows = p2.stationsRows)
    (hproc : p1.procedural = p2.procedural) :
    (∀ (env : Env) (reg : ExtensionRegistry) (kind : Kind),
      generateProceduralSpriteSheetForKind env reg p1 kind =
        generateProceduralSpriteSheetForKind env reg p2 kind) ∧
    (∀ (env : Env) (reg : ExtensionRegistry) (variant : Variant),
      generateProceduralSpriteSheet env reg p1 variant =
        generateProceduralSpriteSheet env reg p2 variant) := by
  constructor
  · intro env reg kind
    cases kind <;>
      simp only [generateProceduralSpriteSheetForKind, generateFromSpriteOrder,
        generateFromCells, getProceduralConfig, isProceduralSpritePack,
        hid, hcols, hrows, hlayout, horder, hdense, hmodern, hparks, hparksC,
        hparksR, hfarms, hfarmsC, hfarmsR, hshops, hshopsC, hshopsR, hstations,
        hstationsC, hstationsR, hproc]
  · intro env reg variant
    simp only [generateProceduralSpriteSheet, generateFromSpriteOrder,
      getProceduralConfig, isProceduralSpritePack, hid, hcols, hrows, hlayout,
      horder, hproc]

/-- Witness for C1: two packs differing only in their non-generation fields
(`name`, `src`, preview) generate the same `main` sheet. -/
theorem generation_deterministic_witness :
    generateProceduralSpriteSheetForKind envStd emptyRegistry pack8 Kind.main =
      generateProceduralSpriteSheetForKind envStd emptyRegistry
        { pack8 with name := "Other", src := "other.png", previewSrc := "p2" }
        Kind.main :=
  (generation_deterministic pack8
    { pack8 with name := "Other", src := "other.png", previewSrc := "p2" }
    rfl rfl rfl rfl rfl rfl rfl rfl rfl rfl rfl rfl rfl rfl rfl rfl rfl rfl
    rfl rfl).1 envStd emptyRegistry Kind.main

end IsoCity
